import Mathlib

/-!
Shallow embedding of the `nmea_simulator` Python package and verification of
its specification claims.

Sources embedded:
* `src/nmea_simulator/gps_tracker.py` — haversine distance, forward bearing,
  the `GPSTracker` time-to-position state machine, and the `RouteConfig`
  route generators.  Floating-point values are idealized as real numbers;
  the transcendental functions force these definitions to be noncomputable.
* `src/nmea_simulator/messages.py` — NMEA sentence rendering.  Numeric
  values are idealized as exact rationals; renderers are computable so
  concrete sentences evaluate inside the kernel.
* `src/nmea_simulator/server.py` — the environmental random-walk state and
  the fixed message batch of `NMEASimulator.generate_messages`.

Elapsed wall-clock time (`time.time() - self.start_time`) is passed to the
embedded tracker operations as an explicit `elapsed` argument, and every
`random.*` sample is passed as an explicit argument to the operation that
draws it.
-/

open Real

/-- Python float modulo `x % y`.  For floats Python computes
`x - y * floor (x / y)` (result carries the divisor's sign); the sources
only ever use a positive divisor. -/
noncomputable def pyMod (x y : ℝ) : ℝ := x - y * ⌊x / y⌋

/-- The two-argument arctangent `math.atan2 y x` with the C convention. -/
noncomputable def atan2 (y x : ℝ) : ℝ :=
  if 0 < x then arctan (y / x)
  else if x < 0 then
    (if 0 ≤ y then arctan (y / x) + π else arctan (y / x) - π)
  else
    (if 0 < y then π / 2 else if y < 0 then -(π / 2) else 0)

/-- Python `math.radians`. -/
noncomputable def pyRadians (d : ℝ) : ℝ := d * π / 180

/-- Python `math.degrees`. -/
noncomputable def pyDegrees (r : ℝ) : ℝ := r * 180 / π

/-- A waypoint with latitude and longitude (`gps_tracker.Waypoint`). -/
structure Waypoint where
  lat : ℝ
  lon : ℝ

/-- A GPS position (`messages.Position`), generic in the numeric carrier:
the tracker produces real-valued positions, the sentence renderers consume
rational ones. -/
structure Position (α : Type) where
  lat : α
  lon : α
deriving DecidableEq

/-- Haversine distance in meters (`Waypoint.distance_to`). -/
noncomputable def Waypoint.distance_to (self other : Waypoint) : ℝ :=
  let R : ℝ := 6371000
  let lat1_rad := pyRadians self.lat
  let lat2_rad := pyRadians other.lat
  let delta_lat := pyRadians (other.lat - self.lat)
  let delta_lon := pyRadians (other.lon - self.lon)
  let a := Real.sin (delta_lat / 2) ^ 2 +
    Real.cos lat1_rad * Real.cos lat2_rad * Real.sin (delta_lon / 2) ^ 2
  let c := 2 * atan2 (Real.sqrt a) (Real.sqrt (1 - a))
  R * c

/-- Forward bearing in degrees (`Waypoint.bearing_to`).  The source
normalizes with `(bearing_deg + 360) % 360`. -/
noncomputable def Waypoint.bearing_to (self other : Waypoint) : ℝ :=
  let lat1_rad := pyRadians self.lat
  let lat2_rad := pyRadians other.lat
  let delta_lon_rad := pyRadians (other.lon - self.lon)
  let y := Real.sin delta_lon_rad * Real.cos lat2_rad
  let x := Real.cos lat1_rad * Real.sin lat2_rad -
    Real.sin lat1_rad * Real.cos lat2_rad * Real.cos delta_lon_rad
  let bearing_rad := atan2 y x
  let bearing_deg := pyDegrees bearing_rad
  pyMod (bearing_deg + 360) 360

/-- The tracker's persistent state: the route and the configured speed
(`GPSTracker.__init__` also records `start_time`, embedded here by passing
`elapsed` explicitly). -/
structure GPSTracker where
  waypoints : List Waypoint
  speed_knots : ℝ

/-- Knots to meters per second (`self.speed_ms = speed_knots * 0.514444`). -/
noncomputable def GPSTracker.speed_ms (t : GPSTracker) : ℝ :=
  t.speed_knots * 0.514444

/-- Sum of the distances between consecutive waypoints — the loop
`for i in range(len(self.waypoints) - 1)` of `_calculate_total_distance`. -/
noncomputable def consecutiveDistance : List Waypoint → ℝ
  | [] => 0
  | [_] => 0
  | a :: b :: rest => a.distance_to b + consecutiveDistance (b :: rest)

/-- Total route length (`GPSTracker._calculate_total_distance`): consecutive
legs, plus the closing leg `waypoints[-1] → waypoints[0]` when the route has
more than 2 waypoints. -/
noncomputable def GPSTracker.calculate_total_distance (t : GPSTracker) : ℝ :=
  consecutiveDistance t.waypoints +
    (if 2 < t.waypoints.length then
      (t.waypoints.getLastD ⟨0, 0⟩).distance_to (t.waypoints.headD ⟨0, 0⟩)
    else 0)

/-- The cached `self.total_distance` field. -/
noncomputable def GPSTracker.total_distance (t : GPSTracker) : ℝ :=
  t.calculate_total_distance

/-- The segment sequence walked by `get_current_position`: pairs
`(waypoints[i], waypoints[i+1])` for `i < n-1` and, for the final loop
iteration `i = n-1`, the pair `(waypoints[n-1], waypoints[0])`. -/
def routeSegments (wps : List Waypoint) : List (Waypoint × Waypoint) :=
  wps.zip (wps.rotate 1)

/-- Linear interpolation between two waypoints
(`GPSTracker._interpolate_position`), with progress clamped to `[0, 1]`. -/
noncomputable def interpolate_position (start stop : Waypoint) (progress : ℝ) :
    Position ℝ :=
  let p := max 0 (min 1 progress)
  ⟨start.lat + (stop.lat - start.lat) * p, start.lon + (stop.lon - start.lon) * p⟩

/-- The segment-search loop of `get_current_position`: find the first segment
whose cumulative span strictly exceeds the traveled distance and report its
index together with the interpolated position; `none` when the loop runs off
the end. -/
noncomputable def segmentWalk :
    List (Waypoint × Waypoint) → ℝ → ℝ → Nat → Option (Nat × Position ℝ)
  | [], _, _, _ => none
  | (s, e) :: rest, traveled, acc, i =>
    let segd := s.distance_to e
    if traveled < acc + segd then
      some (i, interpolate_position s e ((traveled - acc) / segd))
    else
      segmentWalk rest traveled (acc + segd) (i + 1)

/-- `GPSTracker.get_current_position`, as a function of the elapsed time.
Returns the position together with the `current_waypoint_index` the call
stores for later heading queries.  The fallback branch (loop exhausted)
returns the final waypoint and index `n - 2`. -/
noncomputable def GPSTracker.get_current_position (t : GPSTracker)
    (elapsed : ℝ) : Position ℝ × Nat :=
  let traveled0 := elapsed * t.speed_ms
  let traveled :=
    if t.total_distance ≤ traveled0 then pyMod traveled0 t.total_distance
    else traveled0
  match segmentWalk (routeSegments t.waypoints) traveled 0 0 with
  | some (i, p) => (p, i)
  | none =>
    (⟨(t.waypoints.getLastD ⟨0, 0⟩).lat, (t.waypoints.getLastD ⟨0, 0⟩).lon⟩,
      t.waypoints.length - 2)

/-- `GPSTracker.get_current_heading`, as a function of the stored
`current_waypoint_index`. -/
noncomputable def GPSTracker.get_current_heading (t : GPSTracker) (idx : Nat) :
    ℝ :=
  if t.waypoints.length - 1 ≤ idx then
    if 2 ≤ t.waypoints.length then
      (t.waypoints.getD (t.waypoints.length - 2) ⟨0, 0⟩).bearing_to
        (t.waypoints.getD (t.waypoints.length - 1) ⟨0, 0⟩)
    else 0
  else
    (t.waypoints.getD idx ⟨0, 0⟩).bearing_to (t.waypoints.getD (idx + 1) ⟨0, 0⟩)

/-- `GPSTracker.is_route_complete`, as a function of the elapsed time. -/
noncomputable def GPSTracker.is_route_complete (t : GPSTracker) (elapsed : ℝ) :
    Prop :=
  t.total_distance / t.speed_ms ≤ elapsed

/-- The Python exceptions the embedded constructors can raise. -/
inductive PyError where
  | zeroDivisionError
  | valueError
deriving DecidableEq

/-- `GPSTracker.__init__`'s validation: fewer than 2 waypoints raises
`ValueError("At least 2 waypoints are required")`. -/
def GPSTracker.init (waypoints : List Waypoint) (speed_knots : ℝ) :
    Except PyError GPSTracker :=
  if waypoints.length < 2 then Except.error PyError.valueError
  else Except.ok ⟨waypoints, speed_knots⟩

/-- `RouteConfig.create_circular_route`.  The source performs no parameter
validation and never raises; the `Except` result records that. -/
noncomputable def RouteConfig.create_circular_route
    (center_lat center_lon radius_nm : ℝ) (num_points : Nat) :
    Except PyError (List Waypoint) :=
  let radius_lat_deg := radius_nm / 60.0
  let radius_lon_deg := radius_nm / (60.0 * Real.cos (pyRadians center_lat))
  Except.ok ((List.range num_points).map fun (i : ℕ) =>
    let angle := 2 * π * (i : ℝ) / (num_points : ℝ)
    ⟨center_lat + radius_lat_deg * Real.cos angle,
      center_lon + radius_lon_deg * Real.sin angle⟩)

/-- `RouteConfig.create_line_route`.  The loop body divides by
`num_points - 1`; with `num_points = 1` the first iteration raises
`ZeroDivisionError`, and with `num_points ≤ 0` the loop never runs and an
empty list is returned without any error.  No other validation exists. -/
noncomputable def RouteConfig.create_line_route
    (start_lat start_lon end_lat end_lon : ℝ) (num_points : Nat) :
    Except PyError (List Waypoint) :=
  if num_points = 1 then Except.error PyError.zeroDivisionError
  else Except.ok ((List.range num_points).map fun (i : ℕ) =>
    let progress := (i : ℝ) / ((num_points : ℝ) - 1)
    ⟨start_lat + (end_lat - start_lat) * progress,
      start_lon + (end_lon - start_lon) * progress⟩)

/-- `RouteConfig.create_rectangle_route`: the four corners SW, SE, NE, NW
followed by a textual repeat of the SW corner. -/
noncomputable def RouteConfig.create_rectangle_route
    (center_lat center_lon width_nm height_nm : ℝ) : List Waypoint :=
  let width_deg := width_nm / 60.0
  let height_deg := height_nm / 60.0
  [⟨center_lat - height_deg / 2, center_lon - width_deg / 2⟩,
   ⟨center_lat - height_deg / 2, center_lon + width_deg / 2⟩,
   ⟨center_lat + height_deg / 2, center_lon + width_deg / 2⟩,
   ⟨center_lat + height_deg / 2, center_lon - width_deg / 2⟩,
   ⟨center_lat - height_deg / 2, center_lon - width_deg / 2⟩]

/-! Shared concrete route used by several concrete instances below:
an equator leg, a meridian leg, and a closing diagonal. -/

/-- Waypoint (0°, 0°). -/
noncomputable def wpA : Waypoint := ⟨0, 0⟩

/-- Waypoint (0°, 90°). -/
noncomputable def wpB : Waypoint := ⟨0, 90⟩

/-- Waypoint (45°, 90°). -/
noncomputable def wpC : Waypoint := ⟨45, 90⟩

/-- A two-waypoint (open) route at 5 knots. -/
noncomputable def lineTracker : GPSTracker := ⟨[wpA, wpB], 5⟩

/-- A three-waypoint (loop) route at 5 knots. -/
noncomputable def triTracker : GPSTracker := ⟨[wpA, wpB, wpC], 5⟩

/-- Sum of the lengths of a segment list (used to state where the
segment-search loop locates the traveled distance). -/
noncomputable def segDistSum (segs : List (Waypoint × Waypoint)) : ℝ :=
  (segs.map fun p => p.1.distance_to p.2).sum

/-! Embedding of `messages.py`.  Numeric message fields are exact rationals;
every `random.random()` draw and every `strftime` result is an explicit
argument.  The formatting helpers mirror CPython's `%`-format behaviour on
the idealized exact values (round-half-to-even, zero padding); they use only
the numerator and denominator of their argument so that concrete sentences
reduce inside the kernel. -/

/-- Python float modulo over exact rationals (`x % y` with `y > 0`). -/
def pyModQ (x y : ℚ) : ℚ := x - y * ⌊x / y⌋

/-- The decimal digit characters used by `str`/`%d` formatting. -/
def pyDigitChar (n : ℕ) : Char := "0123456789".data.getD n ('0')

/-- The uppercase hexadecimal digit characters used by `%X` formatting. -/
def pyHexDigitChar (n : ℕ) : Char := "0123456789ABCDEF".data.getD n ('0')

/-- Digit expansion of a natural number, most significant first.  The fuel
argument (always instantiated with `n + 1`) keeps the recursion structural. -/
def natDigitsAux : ℕ → ℕ → List Char → List Char
  | 0, _, acc => acc
  | fuel + 1, n, acc =>
    if n < 10 then pyDigitChar n :: acc
    else natDigitsAux fuel (n / 10) (pyDigitChar (n % 10) :: acc)

/-- Python `str` of a natural number. -/
def natToStr (n : ℕ) : String := String.mk (natDigitsAux (n + 1) n [])

/-- Python `str` of an integer. -/
def intToStr (i : ℤ) : String :=
  if i < 0 then "-" ++ natToStr i.natAbs else natToStr i.natAbs

/-- Hex digit expansion of a natural number, most significant first. -/
def hexDigitsAux : ℕ → ℕ → List Char → List Char
  | 0, _, acc => acc
  | fuel + 1, n, acc =>
    if n < 16 then pyHexDigitChar n :: acc
    else hexDigitsAux fuel (n / 16) (pyHexDigitChar (n % 16) :: acc)

/-- Python `"%02X" % n`: uppercase hex, zero-padded to width 2. -/
def pyHex02 (n : ℕ) : String :=
  let l := hexDigitsAux (n + 1) n []
  String.mk (List.replicate (2 - l.length) ('0') ++ l)

/-- Zero padding to a minimum width, as in `%09.6f` / `%02d`. -/
def pyPad0 (w : ℕ) (s : String) : String :=
  String.mk (List.replicate (w - s.data.length) ('0') ++ s.data)

/-- Python `"%0wd" % n` for the nonnegative integers formatted here. -/
def pyFmt0d (w : ℕ) (n : ℤ) : String := pyPad0 w (intToStr n)

/-- Round `n / d` (with `d > 0`) to the nearest integer, ties to even —
the rounding CPython applies when formatting with `%.pf`. -/
def roundHalfEvenInt (n : ℤ) (d : ℕ) : ℤ :=
  let f := Int.fdiv n (d : ℤ)
  let r := n - f * (d : ℤ)
  if 2 * r < (d : ℤ) then f
  else if (d : ℤ) < 2 * r then f + 1
  else if Int.emod f 2 = 0 then f else f + 1

/-- Python `"%.pf" % q` on an exact rational (the IEEE double is idealized
as its exact value). -/
def pyFmtFixed (q : ℚ) (p : ℕ) : String :=
  let m := roundHalfEvenInt (q.num * (10 : ℤ) ^ p) q.den
  let a := m.natAbs
  let ip := a / 10 ^ p
  let fp := a % 10 ^ p
  let sign := if q.num < 0 then "-" else ""
  if p = 0 then sign ++ natToStr ip
  else sign ++ natToStr ip ++ "." ++ pyPad0 p (natToStr fp)

/-- Python `int()` truncation toward zero of an exact rational. -/
def pyIntTrunc (q : ℚ) : ℤ := Int.tdiv q.num (q.den : ℤ)

/-- Python `",".join`. -/
def joinComma : List String → String
  | [] => ""
  | [s] => s
  | s :: rest => s ++ "," ++ joinComma rest

/-- XOR fold of character codes — the loop of
`NMEAMessage.calculate_checksum`. -/
def xorChars (l : List Char) : ℕ := l.foldl (fun a c => a ^^^ c.toNat) 0

/-- `NMEAMessage.calculate_checksum`: XOR of every character of `data`,
rendered as `"%02X"`. -/
def NMEAMessage.calculate_checksum (data : String) : String :=
  pyHex02 (xorChars data.data)

/-- Python slice `data[1:-1]`. -/
def pySlice1m1 (s : String) : String := String.mk ((s.data.drop 1).dropLast)

/-- The common tail of every `to_string` in `messages.py`: the assembled
`data` string (starting with `$` or `!` and ending with `*`) followed by
`calculate_checksum(data[1:-1])`. -/
def finalizeSentence (data : String) : String :=
  data ++ NMEAMessage.calculate_checksum (pySlice1m1 data)

/-- `NMEAMessage.add_random_variation`; `u` is the `random.random()` draw
in `[0, 1)`. -/
def NMEAMessage.add_random_variation (value variation_percent u : ℚ) : ℚ :=
  let variation := value * variation_percent * (u - 0.5) * 2
  value + variation

/-- `Position.to_nmea_lat`.  `abs` is spelled as a conditional negation and
`int()` as the floor of the (nonnegative) absolute value so that concrete
instances evaluate in the kernel. -/
def Position.to_nmea_lat (p : Position ℚ) : String × String :=
  let abs_lat := if p.lat < 0 then -p.lat else p.lat
  let degrees : ℤ := ⌊abs_lat⌋
  let minutes : ℚ := (abs_lat - (degrees : ℚ)) * 60
  let direction := if 0 ≤ p.lat then "N" else "S"
  (pyFmt0d 2 degrees ++ pyPad0 9 (pyFmtFixed minutes 6), direction)

/-- `Position.to_nmea_lon`. -/
def Position.to_nmea_lon (p : Position ℚ) : String × String :=
  let abs_lon := if p.lon < 0 then -p.lon else p.lon
  let degrees : ℤ := ⌊abs_lon⌋
  let minutes : ℚ := (abs_lon - (degrees : ℚ)) * 60
  let direction := if 0 ≤ p.lon then "E" else "W"
  (pyFmt0d 3 degrees ++ pyPad0 9 (pyFmtFixed minutes 6), direction)

/-- `GPRMC.to_string` (`time_str`, `date_str` model the two `strftime`
results; `u1`, `u2` the two random draws). -/
def GPRMC.to_string (time_str date_str : String) (position : Position ℚ)
    (speed_knots course : ℚ) (u1 u2 : ℚ) : String :=
  let ls := position.to_nmea_lat
  let lo := position.to_nmea_lon
  let speed := NMEAMessage.add_random_variation speed_knots 0.05 u1
  let course_v := NMEAMessage.add_random_variation course 0.1 u2
  finalizeSentence ("$GPRMC," ++ time_str ++ ",A," ++ ls.1 ++ "," ++ ls.2 ++
    "," ++ lo.1 ++ "," ++ lo.2 ++ "," ++ pyFmtFixed speed 1 ++ "," ++
    pyFmtFixed course_v 1 ++ "," ++ date_str ++ ",,,*")

/-- `IIVHW.to_string`. -/
def IIVHW.to_string (speed_knots heading : ℚ) (u1 u2 : ℚ) : String :=
  let speed := NMEAMessage.add_random_variation speed_knots 0.05 u1
  let heading_v := NMEAMessage.add_random_variation heading 0.1 u2
  let speed_kmh := speed * 1.852
  finalizeSentence ("$IIVHW," ++ pyFmtFixed heading_v 1 ++ ",T," ++
    pyFmtFixed heading_v 1 ++ ",M," ++ pyFmtFixed speed 1 ++ ",N," ++
    pyFmtFixed speed_kmh 1 ++ ",K*")

/-- `GPVTG.to_string`. -/
def GPVTG.to_string (course speed_knots : ℚ) (u1 u2 : ℚ) : String :=
  let course_v := NMEAMessage.add_random_variation course 0.1 u1
  let speed := NMEAMessage.add_random_variation speed_knots 0.05 u2
  let speed_kmh := speed * 1.852
  finalizeSentence ("$GPVTG," ++ pyFmtFixed course_v 1 ++ ",T," ++
    pyFmtFixed course_v 1 ++ ",M," ++ pyFmtFixed speed 1 ++ ",N," ++
    pyFmtFixed speed_kmh 1 ++ ",K*")

/-- `IIHDT.to_string`. -/
def IIHDT.to_string (heading : ℚ) (u1 : ℚ) : String :=
  let heading_v := NMEAMessage.add_random_variation heading 0.1 u1
  finalizeSentence ("$IIHDT," ++ pyFmtFixed heading_v 1 ++ ",T*")

/-- `GPGLL.to_string`. -/
def GPGLL.to_string (time_str : String) (position : Position ℚ) : String :=
  let ls := position.to_nmea_lat
  let lo := position.to_nmea_lon
  finalizeSentence ("$GPGLL," ++ ls.1 ++ "," ++ ls.2 ++ "," ++ lo.1 ++ "," ++
    lo.2 ++ "," ++ time_str ++ ",A*")

/-- `GPGGA.to_string`. -/
def GPGGA.to_string (time_str : String) (position : Position ℚ)
    (quality satellites : ℤ) (hdop altitude : ℚ) (u1 u2 u3 : ℚ) : String :=
  let ls := position.to_nmea_lat
  let lo := position.to_nmea_lon
  let sats := max 1 (pyIntTrunc
    (NMEAMessage.add_random_variation (satellites : ℚ) 0.2 u1))
  let hdop_v := max 0.5 (NMEAMessage.add_random_variation hdop 0.3 u2)
  let altitude_v := NMEAMessage.add_random_variation altitude 0.1 u3
  finalizeSentence ("$GPGGA," ++ time_str ++ "," ++ ls.1 ++ "," ++ ls.2 ++
    "," ++ lo.1 ++ "," ++ lo.2 ++ "," ++ intToStr quality ++ "," ++
    intToStr sats ++ "," ++ pyFmtFixed hdop_v 1 ++ "," ++
    pyFmtFixed altitude_v 1 ++ ",M,,,,*")

/-- The 12 satellite slots of `GPGSA.to_string`:
`str(sat) if sat in self.satellites else "" for sat in range(1, 13)`. -/
def GPGSA.slots (satellites : List ℤ) : List String :=
  (List.range' 1 12).map fun (sat : ℕ) =>
    if (sat : ℤ) ∈ satellites then intToStr (sat : ℤ) else ""

/-- The joined satellite-slot field of `GPGSA.to_string`. -/
def GPGSA.sat_list (satellites : List ℤ) : String :=
  joinComma (GPGSA.slots satellites)

/-- `GPGSA.to_string`. -/
def GPGSA.to_string (satellites : List ℤ) (pdop hdop vdop : ℚ)
    (u1 u2 u3 : ℚ) : String :=
  let pdop_v := max 0.5 (NMEAMessage.add_random_variation pdop 0.2 u1)
  let hdop_v := max 0.5 (NMEAMessage.add_random_variation hdop 0.2 u2)
  let vdop_v := max 0.5 (NMEAMessage.add_random_variation vdop 0.2 u3)
  finalizeSentence ("$GPGSA,A,3," ++ GPGSA.sat_list satellites ++ "," ++
    pyFmtFixed pdop_v 1 ++ "," ++ pyFmtFixed hdop_v 1 ++ "," ++
    pyFmtFixed vdop_v 1 ++ "*")

/-- `GPZDA.to_string` (`zda_date` models `strftime("%d,%m,%Y")`). -/
def GPZDA.to_string (time_str zda_date : String) : String :=
  finalizeSentence ("$GPZDA," ++ time_str ++ "," ++ zda_date ++ ",02,00*")

/-- `IIVBW.to_string`. -/
def IIVBW.to_string (speed_knots : ℚ) (u1 : ℚ) : String :=
  let speed := NMEAMessage.add_random_variation speed_knots 0.05 u1
  finalizeSentence ("$IIVBW," ++ pyFmtFixed speed 1 ++ "," ++
    pyFmtFixed speed 1 ++ ",A," ++ pyFmtFixed (speed * 0.9) 1 ++ "," ++
    pyFmtFixed (speed * 0.9) 1 ++ ",A," ++ pyFmtFixed (speed * 1.1) 1 ++
    ",A," ++ pyFmtFixed (speed * 0.95) 1 ++ ",A*")

/-- `WIMWD.to_string`. -/
def WIMWD.to_string (wind_direction wind_speed_knots : ℚ) (u1 u2 : ℚ) :
    String :=
  let direction := NMEAMessage.add_random_variation wind_direction 0.1 u1
  let speed := NMEAMessage.add_random_variation wind_speed_knots 0.1 u2
  let speed_ms := speed * 0.514444
  finalizeSentence ("$WIMWD," ++ pyFmtFixed direction 1 ++ ",T," ++
    pyFmtFixed direction 1 ++ ",M," ++ pyFmtFixed speed 1 ++ ",N," ++
    pyFmtFixed speed_ms 1 ++ ",M*")

/-- `WIMWV.to_string`. -/
def WIMWV.to_string (wind_direction wind_speed_knots : ℚ) (u1 u2 : ℚ) :
    String :=
  let direction := NMEAMessage.add_random_variation wind_direction 0.1 u1
  let speed := NMEAMessage.add_random_variation wind_speed_knots 0.1 u2
  finalizeSentence ("$WIMWV," ++ pyFmtFixed direction 1 ++ ",R," ++
    pyFmtFixed speed 1 ++ ",N,A*")

/-- `IIMTW.to_string`. -/
def IIMTW.to_string (temperature_celsius : ℚ) (u1 : ℚ) : String :=
  let temp := NMEAMessage.add_random_variation temperature_celsius 0.05 u1
  finalizeSentence ("$IIMTW," ++ pyFmtFixed temp 1 ++ ",C*")

/-- `SDDPT.to_string`. -/
def SDDPT.to_string (depth_meters offset : ℚ) (u1 : ℚ) : String :=
  let depth := NMEAMessage.add_random_variation depth_meters 0.1 u1
  finalizeSentence ("$SDDPT," ++ pyFmtFixed depth 1 ++ "," ++
    pyFmtFixed offset 1 ++ "*")

/-- `SDDBT.to_string`. -/
def SDDBT.to_string (depth_feet depth_meters depth_fathoms : ℚ)
    (u1 u2 u3 : ℚ) : String :=
  let depth_f := NMEAMessage.add_random_variation depth_feet 0.1 u1
  let depth_m := NMEAMessage.add_random_variation depth_meters 0.1 u2
  let depth_fa := NMEAMessage.add_random_variation depth_fathoms 0.1 u3
  finalizeSentence ("$SDDBT," ++ pyFmtFixed depth_f 1 ++ ",f," ++
    pyFmtFixed depth_m 1 ++ ",M," ++ pyFmtFixed depth_fa 1 ++ ",F*")

/-- `IIRPM.to_string`. -/
def IIRPM.to_string (engine_id : String) (rpm pitch : ℚ) (u1 u2 : ℚ) :
    String :=
  let rpm_v := NMEAMessage.add_random_variation rpm 0.05 u1
  let pitch_v := NMEAMessage.add_random_variation pitch 0.1 u2
  finalizeSentence ("$IIRPM," ++ engine_id ++ "," ++ engine_id ++ "," ++
    pyFmtFixed rpm_v 1 ++ "," ++ pyFmtFixed pitch_v 1 ++ ",A*")

/-- `IIAPB.to_string`. -/
def IIAPB.to_string (bearing_to_dest bearing_to_dest_mag heading : ℚ)
    (u1 u2 u3 : ℚ) : String :=
  let bearing := NMEAMessage.add_random_variation bearing_to_dest 0.1 u1
  let bearing_mag := NMEAMessage.add_random_variation bearing_to_dest_mag 0.1 u2
  let heading_v := NMEAMessage.add_random_variation heading 0.1 u3
  finalizeSentence ("$IIAPB,A,A," ++ pyFmtFixed bearing 6 ++ ",R,N,,," ++
    pyFmtFixed heading_v 1 ++ ",T,dest," ++ pyFmtFixed bearing_mag 1 ++
    ",T," ++ pyFmtFixed bearing_mag 1 ++ ",T,A*")

/-- `GPRMB.to_string` (the sampled speed variation is drawn but unused in
the rendered sentence, exactly as in the source). -/
def GPRMB.to_string (position : Position ℚ)
    (bearing distance speed heading : ℚ) (u1 u2 u3 u4 : ℚ) : String :=
  let ls := position.to_nmea_lat
  let lo := position.to_nmea_lon
  let bearing_v := NMEAMessage.add_random_variation bearing 0.1 u1
  let distance_v := NMEAMessage.add_random_variation distance 0.05 u2
  let speed_v := NMEAMessage.add_random_variation speed 0.05 u3
  let heading_v := NMEAMessage.add_random_variation heading 0.1 u4
  finalizeSentence ("$GPRMB,A," ++ pyFmtFixed bearing_v 6 ++
    ",R,origin,dest," ++ ls.1 ++ "," ++ ls.2 ++ "," ++ lo.1 ++ "," ++ lo.2 ++
    "," ++ pyFmtFixed distance_v 3 ++ "," ++ pyFmtFixed heading_v 1 ++
    ",-1.4,,A*")

/-- `AIVDO.to_string` (the stored `message_id` is not rendered). -/
def AIVDO.to_string (message_id fragment_count fragment_number : ℤ)
    (radio_channel payload : String) : String :=
  finalizeSentence ("!AIVDO," ++ intToStr fragment_count ++ "," ++
    intToStr fragment_number ++ ",," ++ radio_channel ++ "," ++ payload ++
    "," ++ intToStr fragment_number ++ "*")

/-- `AIVDM.to_string` (the stored `message_id` is not rendered). -/
def AIVDM.to_string (message_id fragment_count fragment_number : ℤ)
    (radio_channel payload : String) : String :=
  finalizeSentence ("!AIVDM," ++ intToStr fragment_count ++ "," ++
    intToStr fragment_number ++ ",," ++ radio_channel ++ "," ++ payload ++
    "," ++ intToStr fragment_number ++ "*")

/-! Embedding of the simulator state of `server.py`. -/

/-- The mutable environmental fields of `NMEASimulator`, in declaration
order of `__init__`. -/
structure EnvState where
  engine_rpm : ℚ
  engine_pitch : ℚ
  wind_direction : ℚ
  wind_speed : ℚ
  water_temp : ℚ
  depth : ℚ
deriving DecidableEq

/-- The seed values assigned by `NMEASimulator.__init__`. -/
def NMEASimulator.initialEnv : EnvState :=
  { engine_rpm := 612.0
    engine_pitch := 10.5
    wind_direction := 255.1
    wind_speed := 27.8
    water_temp := 6.7
    depth := 2.2 }

/-- One tick's worth of `random.uniform` draws consumed by
`_update_environmental_data`, in sampling order. -/
structure EnvTick where
  dWindDir : ℚ
  dWindSpeed : ℚ
  dWaterTemp : ℚ
  dDepth : ℚ
  dRpm : ℚ
  dPitch : ℚ

/-- The ranges of the `random.uniform` calls of
`_update_environmental_data`. -/
def EnvTick.inRange (t : EnvTick) : Prop :=
  |t.dWindDir| ≤ 2 ∧ |t.dWindSpeed| ≤ 1 ∧ |t.dWaterTemp| ≤ 0.2 ∧
    |t.dDepth| ≤ 0.1 ∧ |t.dRpm| ≤ 5 ∧ |t.dPitch| ≤ 0.5

/-- `NMEASimulator._update_environmental_data`. -/
def NMEASimulator.update_environmental_data (s : EnvState) (t : EnvTick) :
    EnvState :=
  { wind_direction := pyModQ (s.wind_direction + t.dWindDir) 360
    wind_speed := max 0 (s.wind_speed + t.dWindSpeed)
    water_temp := max 0 (s.water_temp + t.dWaterTemp)
    depth := max 0.1 (s.depth + t.dDepth)
    engine_rpm := max 0 (s.engine_rpm + t.dRpm)
    engine_pitch := max 0 (s.engine_pitch + t.dPitch) }

/-- The invariant claimed for the environmental state. -/
def EnvState.invariantOk (s : EnvState) : Prop :=
  0 ≤ s.wind_direction ∧ s.wind_direction < 360 ∧ 0 ≤ s.wind_speed ∧
    0 ≤ s.water_temp ∧ 0.1 ≤ s.depth ∧ 0 ≤ s.engine_rpm ∧ 0 ≤ s.engine_pitch

/-- The fixed AIS payload strings of `NMEASimulator.__init__`. -/
def NMEASimulator.ais_payloads : List String :=
  ["17PaewhP0gar0FkcvG4hBh>t0000",
   "57Paewh00001<To7;?@plD5<Tl0000000000000U1@:552R8R2TnA3QF",
   "@00000000000002"]

/-- The random draws and `strftime` results consumed by one
`generate_messages` call, in consumption order. -/
structure GenRand where
  time_str : String
  date_str : String
  zda_date_str : String
  u_rmc_speed : ℚ
  u_rmc_course : ℚ
  u_vhw_speed : ℚ
  u_vhw_heading : ℚ
  u_vtg_course : ℚ
  u_vtg_speed : ℚ
  u_hdt : ℚ
  u_gga_sat : ℚ
  u_gga_hdop : ℚ
  u_gga_alt : ℚ
  u_gsa_p : ℚ
  u_gsa_h : ℚ
  u_gsa_v : ℚ
  u_vbw : ℚ
  u_mwd_dir : ℚ
  u_mwd_speed : ℚ
  u_mwv_dir : ℚ
  u_mwv_speed : ℚ
  u_mtw : ℚ
  u_dpt : ℚ
  u_dbt_f : ℚ
  u_dbt_m : ℚ
  u_dbt_fa : ℚ
  u_rpm1 : ℚ
  u_rpm1_pitch : ℚ
  u_rpm2 : ℚ
  u_rpm2_pitch : ℚ
  u_apb_b : ℚ
  u_apb_bm : ℚ
  u_apb_h : ℚ
  u_rmb_b : ℚ
  u_rmb_d : ℚ
  u_rmb_s : ℚ
  u_rmb_h : ℚ

/-- `NMEASimulator.generate_messages`.  The tracker snapshot
(`position`, `heading`, `speed`) is passed in directly; the environmental
state is first advanced by `_update_environmental_data` (one `EnvTick`),
then the fixed batch is rendered in source order. -/
def NMEASimulator.generate_messages (position : Position ℚ)
    (heading speed : ℚ) (env : EnvState) (tick : EnvTick) (r : GenRand) :
    List String :=
  let e := NMEASimulator.update_environmental_data env tick
  [GPRMC.to_string r.time_str r.date_str position speed heading
      r.u_rmc_speed r.u_rmc_course,
   IIVHW.to_string speed heading r.u_vhw_speed r.u_vhw_heading,
   GPVTG.to_string heading speed r.u_vtg_course r.u_vtg_speed,
   IIHDT.to_string heading r.u_hdt,
   GPGLL.to_string r.time_str position,
   GPGGA.to_string r.time_str position 1 4 1.0 2.0
      r.u_gga_sat r.u_gga_hdop r.u_gga_alt,
   GPGSA.to_string [8, 11, 15, 22] 2.0 1.0 1.0 r.u_gsa_p r.u_gsa_h r.u_gsa_v,
   GPZDA.to_string r.time_str r.zda_date_str,
   IIVBW.to_string speed r.u_vbw,
   WIMWD.to_string e.wind_direction e.wind_speed r.u_mwd_dir r.u_mwd_speed,
   WIMWV.to_string e.wind_direction e.wind_speed r.u_mwv_dir r.u_mwv_speed,
   IIMTW.to_string e.water_temp r.u_mtw,
   SDDPT.to_string e.depth 0.3 r.u_dpt,
   SDDBT.to_string (e.depth * 3.28084) e.depth (e.depth * 0.546807)
      r.u_dbt_f r.u_dbt_m r.u_dbt_fa,
   IIRPM.to_string ("1") e.engine_rpm e.engine_pitch r.u_rpm1 r.u_rpm1_pitch,
   IIRPM.to_string ("2") 0 e.engine_pitch r.u_rpm2 r.u_rpm2_pitch,
   IIAPB.to_string 0.012140 260.4 heading r.u_apb_b r.u_apb_bm r.u_apb_h,
   GPRMB.to_string position 0.012140 3.573 speed heading
      r.u_rmb_b r.u_rmb_d r.u_rmb_s r.u_rmb_h,
   AIVDO.to_string 1 1 1 ("A") (NMEASimulator.ais_payloads.getD 0 ("")),
   AIVDM.to_string 1 1 1 ("A") (NMEASimulator.ais_payloads.getD 0 ("")),
   AIVDO.to_string 2 1 9 ("A") (NMEASimulator.ais_payloads.getD 1 ("")),
   AIVDO.to_string 2 2 9 ("A") (NMEASimulator.ais_payloads.getD 2 ("")),
   AIVDM.to_string 2 1 9 ("A") (NMEASimulator.ais_payloads.getD 1 ("")),
   AIVDM.to_string 2 2 9 ("A") (NMEASimulator.ais_payloads.getD 2 (""))]

/-! Predicates used to state the claims about rendered sentences. -/

/-- A string of 7-bit characters (every sentence the simulator renders is
ASCII, so each character XORs as a single byte). -/
def asciiStr (s : String) : Prop := ∀ c ∈ s.data, c.toNat < 128

/-- Uppercase hexadecimal digit. -/
def isHexUpperDigit (c : Char) : Bool :=
  (48 ≤ c.toNat && c.toNat ≤ 57) || (65 ≤ c.toNat && c.toNat ≤ 70)

/-- Value of an uppercase hexadecimal digit. -/
def hexCharVal (c : Char) : ℕ :=
  if c.toNat ≤ 57 then c.toNat - 48 else c.toNat - 55

/-- Value of a big-endian string of uppercase hexadecimal digits. -/
def hexPairVal (l : List Char) : ℕ :=
  l.foldl (fun a c => 16 * a + hexCharVal c) 0

/-- Checksum well-formedness of a rendered sentence: it starts with `$` or
`!`, ends with `*` followed by exactly two uppercase hexadecimal digits, and
the value of those digits is the XOR of every character strictly between the
leading character and the trailing `*`. -/
def checksumOkB (s : String) : Bool :=
  let l := s.data
  let afterStar := (l.reverse.takeWhile (fun c => c ≠ '*')).reverse
  let upToStar := (l.reverse.dropWhile (fun c => c ≠ '*')).reverse
  (match l.head? with
    | some c => c == '$' || c == '!'
    | none => false) &&
  (upToStar.getLast? == some '*') &&
  (afterStar.length == 2) &&
  afterStar.all isHexUpperDigit &&
  (hexPairVal afterStar == xorChars ((upToStar.drop 1).dropLast))

/-! Basic facts about the embedded geographic primitives. -/

theorem atan2_nonneg {y x : ℝ} (hy : 0 ≤ y) : 0 ≤ atan2 y x := by
  unfold atan2
  split_ifs with h1 h2 h3 h4
  · have h : (0:ℝ) ≤ y / x := div_nonneg hy h1.le
    simpa using Real.arctan_strictMono.monotone h
  · have := Real.neg_pi_div_two_lt_arctan (y / x)
    have hpi := Real.pi_pos
    linarith
  · have hpi := Real.pi_pos
    positivity
  · exact absurd h4 (not_lt.mpr hy)
  · exact le_refl 0

theorem atan2_pos {y x : ℝ} (hy : 0 < y) (hx : 0 ≤ x) : 0 < atan2 y x := by
  unfold atan2
  rcases lt_or_eq_of_le hx with h1 | h1
  · rw [if_pos h1]
    have h : (0:ℝ) < y / x := div_pos hy h1
    simpa using Real.arctan_strictMono h
  · rw [if_neg (by rw [← h1]; exact lt_irrefl 0), if_neg (by rw [← h1]; exact lt_irrefl 0),
      if_pos hy]
    have hpi := Real.pi_pos
    positivity

theorem distance_to_nonneg (a b : Waypoint) : 0 ≤ a.distance_to b := by
  unfold Waypoint.distance_to
  have h := atan2_nonneg (x := Real.sqrt (1 -
      (Real.sin (pyRadians (b.lat - a.lat) / 2) ^ 2 +
        Real.cos (pyRadians a.lat) * Real.cos (pyRadians b.lat) *
          Real.sin (pyRadians (b.lon - a.lon) / 2) ^ 2)))
    (Real.sqrt_nonneg (Real.sin (pyRadians (b.lat - a.lat) / 2) ^ 2 +
        Real.cos (pyRadians a.lat) * Real.cos (pyRadians b.lat) *
          Real.sin (pyRadians (b.lon - a.lon) / 2) ^ 2))
  positivity

theorem distance_to_self (w : Waypoint) : w.distance_to w = 0 := by
  unfold Waypoint.distance_to
  simp only [sub_self]
  have hrad : pyRadians 0 = 0 := by simp [pyRadians]
  rw [hrad]
  norm_num [atan2, Real.arctan_zero]

theorem consecutiveDistance_nonneg (l : List Waypoint) :
    0 ≤ consecutiveDistance l := by
  induction l with
  | nil => simp [consecutiveDistance]
  | cons a t ih =>
    cases t with
    | nil => simp [consecutiveDistance]
    | cons b r =>
      simp only [consecutiveDistance]
      exact add_nonneg (distance_to_nonneg a b) ih

/-! Exact values of the geographic primitives at the concrete route
anchored at the equator and the 90th meridian. -/

theorem sin_pi_div_four_sq : Real.sin (π/4) ^ 2 = 1/2 := by
  rw [Real.sin_pi_div_four, div_pow, Real.sq_sqrt (by norm_num : (0:ℝ) ≤ 2)]
  norm_num

theorem atan2_self_pos {z : ℝ} (h : 0 < z) : atan2 z z = π/4 := by
  unfold atan2
  rw [if_pos h, div_self h.ne', Real.arctan_one]

theorem distance_wpA_wpB : wpA.distance_to wpB = 6371000 * (π / 2) := by
  unfold wpA wpB Waypoint.distance_to
  simp only
  have e1 : pyRadians ((0:ℝ) - 0) = 0 := by simp [pyRadians]
  have e2 : pyRadians ((90:ℝ) - 0) / 2 = π/4 := by unfold pyRadians; ring
  have e3 : pyRadians (0:ℝ) = 0 := by simp [pyRadians]
  rw [e1, e2, e3]
  have ha : Real.sin ((0:ℝ) / 2) ^ 2 + Real.cos 0 * Real.cos 0 * Real.sin (π / 4) ^ 2 = 1/2 := by
    rw [sin_pi_div_four_sq]; norm_num
  rw [ha, show (1:ℝ) - 1/2 = 1/2 by norm_num,
    atan2_self_pos (Real.sqrt_pos.mpr (by norm_num : (0:ℝ) < 1/2))]
  ring

theorem atan2_zero_pos {x : ℝ} (h : 0 < x) : atan2 0 x = 0 := by
  unfold atan2
  rw [if_pos h]
  simp

theorem atan2_negone_zero : atan2 (-1) 0 = -(π/2) := by
  unfold atan2
  norm_num

theorem distance_wpC_wpA : wpC.distance_to wpA = 6371000 * (π / 2) := by
  unfold wpC wpA Waypoint.distance_to
  simp only
  have e1 : pyRadians ((0:ℝ) - 45) / 2 = -(π/8) := by unfold pyRadians; ring
  have e2 : pyRadians ((0:ℝ) - 90) / 2 = -(π/4) := by unfold pyRadians; ring
  have e3 : pyRadians (45:ℝ) = π/4 := by unfold pyRadians; ring
  have e4 : pyRadians (0:ℝ) = 0 := by simp [pyRadians]
  rw [e1, e2, e3, e4]
  have ha : Real.sin (-(π/8)) ^ 2 + Real.cos (π/4) * Real.cos 0 * Real.sin (-(π/4)) ^ 2
      = 1/2 := by
    rw [Real.sin_neg, Real.sin_neg, neg_sq, neg_sq, Real.sin_sq_eq_half_sub,
      show 2 * (π/8) = π/4 by ring, Real.cos_pi_div_four, Real.cos_zero,
      sin_pi_div_four_sq]
    ring
  rw [ha, show (1:ℝ) - 1/2 = 1/2 by norm_num,
    atan2_self_pos (Real.sqrt_pos.mpr (by norm_num : (0:ℝ) < 1/2))]
  ring

theorem bearing_wpB_wpC : wpB.bearing_to wpC = 0 := by
  unfold wpB wpC Waypoint.bearing_to
  simp only
  have e1 : pyRadians ((90:ℝ) - 90) = 0 := by simp [pyRadians]
  have e2 : pyRadians (0:ℝ) = 0 := by simp [pyRadians]
  have e3 : pyRadians (45:ℝ) = π/4 := by unfold pyRadians; ring
  rw [e1, e2, e3]
  have hy : Real.sin 0 * Real.cos (π/4) = 0 := by simp
  rw [hy]
  have hx : Real.cos 0 * Real.sin (π/4) - 0 * Real.cos 0 = Real.sqrt 2 / 2 := by
    simp [Real.sin_pi_div_four]
  rw [hx, atan2_zero_pos (by positivity)]
  unfold pyDegrees pyMod
  norm_num

theorem bearing_wpC_wpA : wpC.bearing_to wpA = 270 := by
  unfold wpC wpA Waypoint.bearing_to
  simp only
  have e1 : pyRadians ((0:ℝ) - 90) = -(π/2) := by unfold pyRadians; ring
  have e2 : pyRadians (0:ℝ) = 0 := by simp [pyRadians]
  have e3 : pyRadians (45:ℝ) = π/4 := by unfold pyRadians; ring
  rw [e1, e2, e3]
  have hy : Real.sin (-(π/2)) * Real.cos 0 = -1 := by
    simp [Real.sin_neg]
  have hx : Real.cos (π/4) * Real.sin 0 - Real.sin (π/4) * Real.cos 0 * Real.cos (-(π/2))
      = 0 := by
    simp [Real.cos_neg]
  rw [hy, hx, atan2_negone_zero]
  have hdeg : pyDegrees (-(π/2)) = -90 := by
    unfold pyDegrees
    field_simp
    ring
  rw [hdeg]
  unfold pyMod
  have : (-90 + 360 : ℝ) / 360 = 3/4 := by norm_num
  rw [this]
  norm_num

/-! Facts about the Python modulo on positive divisors. -/

theorem pyMod_eq_mul_fract {x y : ℝ} (hy : y ≠ 0) :
    pyMod x y = y * Int.fract (x / y) := by
  unfold pyMod Int.fract
  field_simp

theorem pyMod_nonneg {x y : ℝ} (hy : 0 < y) : 0 ≤ pyMod x y := by
  rw [pyMod_eq_mul_fract hy.ne']
  exact mul_nonneg hy.le (Int.fract_nonneg _)

theorem pyMod_lt {x y : ℝ} (hy : 0 < y) : pyMod x y < y := by
  rw [pyMod_eq_mul_fract hy.ne']
  calc y * Int.fract (x / y) < y * 1 :=
        (mul_lt_mul_left hy).mpr (Int.fract_lt_one _)
    _ = y := mul_one y

theorem pyMod_self {y : ℝ} (hy : y ≠ 0) : pyMod y y = 0 := by
  unfold pyMod
  rw [div_self hy]
  norm_num

theorem pyMod_three_halves {d : ℝ} (hd : 0 < d) :
    pyMod (1.5 * d) d = 0.5 * d := by
  unfold pyMod
  rw [mul_div_assoc, div_self hd.ne', mul_one,
    show ⌊(1.5:ℝ)⌋ = 1 by norm_num]
  push_cast
  ring

/-! Route-level facts about the tracker. -/

theorem total_distance_pair (w0 w1 : Waypoint) (s : ℝ) :
    (GPSTracker.mk [w0, w1] s).total_distance = w0.distance_to w1 := by
  simp [GPSTracker.total_distance, GPSTracker.calculate_total_distance,
    consecutiveDistance]

theorem total_distance_triple (w0 w1 w2 : Waypoint) (s : ℝ) :
    (GPSTracker.mk [w0, w1, w2] s).total_distance =
      w0.distance_to w1 + w1.distance_to w2 + w2.distance_to w0 := by
  simp [GPSTracker.total_distance, GPSTracker.calculate_total_distance,
    consecutiveDistance]

theorem consecutiveDistance_eq_zip_sum (l : List Waypoint) :
    consecutiveDistance l =
      ((l.zip l.tail).map fun p => p.1.distance_to p.2).sum := by
  induction l with
  | nil => simp [consecutiveDistance]
  | cons a t ih =>
    cases t with
    | nil => simp [consecutiveDistance]
    | cons b r =>
      simp only [consecutiveDistance, List.tail_cons, List.zip_cons_cons,
        List.map_cons, List.sum_cons] at ih ⊢
      rw [ih]

theorem routeSegments_cons (w0 w1 : Waypoint) (rest : List Waypoint) :
    routeSegments (w0 :: w1 :: rest) =
      (w0, w1) :: (w1 :: rest).zip (rest ++ [w0]) := by
  unfold routeSegments
  rw [show (1:ℕ) = 0 + 1 by rfl, List.rotate_cons_succ, List.rotate_zero]
  simp

theorem segDistSum_nil : segDistSum [] = 0 := by simp [segDistSum]

theorem segDistSum_cons (s e : Waypoint) (rest : List (Waypoint × Waypoint)) :
    segDistSum ((s, e) :: rest) = s.distance_to e + segDistSum rest := by
  simp [segDistSum]

theorem segDistSum_nonneg (segs : List (Waypoint × Waypoint)) :
    0 ≤ segDistSum segs := by
  induction segs with
  | nil => simp [segDistSum]
  | cons p rest ih =>
    rw [show p = (p.1, p.2) by rfl, segDistSum_cons]
    exact add_nonneg (distance_to_nonneg p.1 p.2) ih

theorem segmentWalk_hit {s e : Waypoint} {rest : List (Waypoint × Waypoint)}
    {traveled acc : ℝ} {i : ℕ} (h : traveled < acc + s.distance_to e) :
    segmentWalk ((s, e) :: rest) traveled acc i =
      some (i, interpolate_position s e ((traveled - acc) / s.distance_to e)) := by
  simp only [segmentWalk]
  rw [if_pos h]

theorem segmentWalk_miss {s e : Waypoint} {rest : List (Waypoint × Waypoint)}
    {traveled acc : ℝ} {i : ℕ} (h : ¬ traveled < acc + s.distance_to e) :
    segmentWalk ((s, e) :: rest) traveled acc i =
      segmentWalk rest traveled (acc + s.distance_to e) (i + 1) := by
  simp only [segmentWalk]
  rw [if_neg h]

theorem segmentWalk_locate :
    ∀ (segs : List (Waypoint × Waypoint)) (j : ℕ) (hj : j < segs.length)
      (traveled acc : ℝ) (i : ℕ),
      segDistSum (segs.take j) + acc ≤ traveled →
      traveled < segDistSum (segs.take (j + 1)) + acc →
      segmentWalk segs traveled acc i =
        some (i + j,
          interpolate_position (segs.get ⟨j, hj⟩).1 (segs.get ⟨j, hj⟩).2
            ((traveled - (segDistSum (segs.take j) + acc)) /
              ((segs.get ⟨j, hj⟩).1.distance_to (segs.get ⟨j, hj⟩).2))) := by
  intro segs
  induction segs with
  | nil => intro j hj; exact absurd hj (by simp)
  | cons p rest ih =>
    obtain ⟨s, e⟩ := p
    intro j hj traveled acc i hlow hhigh
    cases j with
    | zero =>
      rw [List.take_zero, segDistSum_nil, zero_add] at hlow
      rw [List.take_succ_cons, List.take_zero, segDistSum_cons, segDistSum_nil,
        add_zero] at hhigh
      rw [segmentWalk_hit (by linarith)]
      rw [List.take_zero, segDistSum_nil, zero_add]
      simp
    | succ j' =>
      have hj' : j' < rest.length := by simpa using hj
      rw [List.take_succ_cons, segDistSum_cons] at hlow
      rw [List.take_succ_cons, segDistSum_cons] at hhigh
      have hnn : 0 ≤ segDistSum (rest.take j') := segDistSum_nonneg _
      rw [segmentWalk_miss (by push_neg; linarith)]
      have := ih j' hj' traveled (acc + s.distance_to e) (i + 1)
        (by linarith) (by linarith)
      rw [this]
      have h1 : i + 1 + j' = i + (j' + 1) := by omega
      have h2 : ((s, e) :: rest).get ⟨j' + 1, hj⟩ = rest.get ⟨j', hj'⟩ := rfl
      rw [h1, h2, List.take_succ_cons, segDistSum_cons]
      have h3 : traveled - (segDistSum (List.take j' rest) + (acc + s.distance_to e)) =
          traveled - (s.distance_to e + segDistSum (List.take j' rest) + acc) := by
        ring
      rw [h3]

theorem interpolate_position_zero (a b : Waypoint) :
    interpolate_position a b 0 = Position.mk a.lat a.lon := by
  unfold interpolate_position
  rw [min_eq_right (by norm_num : (0:ℝ) ≤ 1), max_self]
  simp

theorem interpolate_position_half (a b : Waypoint) :
    interpolate_position a b 0.5 =
      Position.mk (a.lat + (b.lat - a.lat) * 0.5) (a.lon + (b.lon - a.lon) * 0.5) := by
  unfold interpolate_position
  rw [min_eq_right (by norm_num : (0.5:ℝ) ≤ 1),
    max_eq_right (by norm_num : (0:ℝ) ≤ 0.5)]

/-- Evaluation of a two-waypoint tracker once the traveled distance has
reached the route length: the wrap branch fires, the reduced distance falls
in the first segment, and the reported position restarts from the first
waypoint. -/
theorem two_waypoint_wrap_eval (w0 w1 : Waypoint) (speed elapsed : ℝ)
    (hd : 0 < w0.distance_to w1) (hs : 0 < speed)
    (hwrap : (GPSTracker.mk [w0, w1] speed).total_distance ≤
      elapsed * (GPSTracker.mk [w0, w1] speed).speed_ms) :
    (GPSTracker.mk [w0, w1] speed).is_route_complete elapsed ∧
    (GPSTracker.mk [w0, w1] speed).get_current_position elapsed =
      (interpolate_position w0 w1
        (pyMod (elapsed * (GPSTracker.mk [w0, w1] speed).speed_ms)
            (w0.distance_to w1) / (w0.distance_to w1)), 0) := by
  have hT := total_distance_pair w0 w1 speed
  have hsms : 0 < (GPSTracker.mk [w0, w1] speed).speed_ms :=
    mul_pos hs (by norm_num)
  constructor
  · unfold GPSTracker.is_route_complete
    rw [div_le_iff₀ hsms]
    exact hwrap
  · unfold GPSTracker.get_current_position
    simp only
    rw [if_pos hwrap, hT]
    have hseg : routeSegments [w0, w1] = [(w0, w1), (w1, w0)] := by
      rw [routeSegments_cons]
      simp
    rw [hseg]
    have hmlt : pyMod (elapsed * (GPSTracker.mk [w0, w1] speed).speed_ms)
        (w0.distance_to w1) < 0 + w0.distance_to w1 := by
      rw [zero_add]
      exact pyMod_lt hd
    rw [segmentWalk_hit hmlt]
    rw [sub_zero]

/-- Claim C1 (amended): for a tracker on a 2-waypoint route with a positive
leg and positive speed, `is_route_complete` is true exactly when
`elapsed >= totalLength / speed`; but once the traveled distance reaches the
total length, `get_current_position` does not clamp at the final waypoint:
it wraps, reducing the traveled distance modulo the total length and
interpolating forward from the first waypoint again (segment index 0). -/
theorem c1_open_route_wraps_modulo (w0 w1 : Waypoint) (speed elapsed : ℝ)
    (hd : 0 < w0.distance_to w1) (hs : 0 < speed)
    (hwrap : (GPSTracker.mk [w0, w1] speed).total_distance ≤
      elapsed * (GPSTracker.mk [w0, w1] speed).speed_ms) :
    (GPSTracker.mk [w0, w1] speed).is_route_complete elapsed ∧
    (GPSTracker.mk [w0, w1] speed).get_current_position elapsed =
      (interpolate_position w0 w1
        (pyMod (elapsed * (GPSTracker.mk [w0, w1] speed).speed_ms)
            (w0.distance_to w1) / (w0.distance_to w1)), 0) :=
  two_waypoint_wrap_eval w0 w1 speed elapsed hd hs hwrap

/-- Claim C1 (witness): the amended statement at the concrete equator route
`[(0,0), (0,90)]`, 5 knots, and `elapsed = 1.5 * totalLength / speed`. -/
theorem c1_open_route_wraps_modulo_witness :
    0 < wpA.distance_to wpB ∧ (0:ℝ) < 5 ∧
    (GPSTracker.mk [wpA, wpB] 5).total_distance ≤
      (1.5 * (GPSTracker.mk [wpA, wpB] 5).total_distance /
          (GPSTracker.mk [wpA, wpB] 5).speed_ms) *
        (GPSTracker.mk [wpA, wpB] 5).speed_ms ∧
    ((GPSTracker.mk [wpA, wpB] 5).is_route_complete
        (1.5 * (GPSTracker.mk [wpA, wpB] 5).total_distance /
          (GPSTracker.mk [wpA, wpB] 5).speed_ms) ∧
      (GPSTracker.mk [wpA, wpB] 5).get_current_position
          (1.5 * (GPSTracker.mk [wpA, wpB] 5).total_distance /
            (GPSTracker.mk [wpA, wpB] 5).speed_ms) =
        (interpolate_position wpA wpB
          (pyMod ((1.5 * (GPSTracker.mk [wpA, wpB] 5).total_distance /
                (GPSTracker.mk [wpA, wpB] 5).speed_ms) *
              (GPSTracker.mk [wpA, wpB] 5).speed_ms)
              (wpA.distance_to wpB) / (wpA.distance_to wpB)), 0)) := by
  have hd : 0 < wpA.distance_to wpB := by
    rw [distance_wpA_wpB]
    have := Real.pi_pos
    positivity
  have hsms : 0 < (GPSTracker.mk [wpA, wpB] 5).speed_ms :=
    mul_pos (by norm_num) (by norm_num)
  have hT := total_distance_pair wpA wpB 5
  have hTpos : 0 < (GPSTracker.mk [wpA, wpB] 5).total_distance := by
    rw [hT]; exact hd
  have hwrap : (GPSTracker.mk [wpA, wpB] 5).total_distance ≤
      (1.5 * (GPSTracker.mk [wpA, wpB] 5).total_distance /
          (GPSTracker.mk [wpA, wpB] 5).speed_ms) *
        (GPSTracker.mk [wpA, wpB] 5).speed_ms := by
    rw [div_mul_cancel₀ _ hsms.ne']
    linarith
  exact ⟨hd, by norm_num, hwrap,
    c1_open_route_wraps_modulo wpA wpB 5 _ hd (by norm_num) hwrap⟩

/-- Claim C1 (counterexample): on the 2-waypoint route `[(0,0), (0,90)]` at
5 knots, at `elapsed = 1.5 * totalLength / speed` the traveled distance
exceeds the total length and `is_route_complete` holds, yet the reported
position is the segment midpoint `(0, 45)` — the tracker wrapped back
through the route — and not the final waypoint `(0, 90)` the claim's
"bounce-less clamp" requires. -/
theorem c1_clamp_counterexample :
    lineTracker.is_route_complete
      (1.5 * lineTracker.total_distance / lineTracker.speed_ms) ∧
    lineTracker.total_distance ≤
      (1.5 * lineTracker.total_distance / lineTracker.speed_ms) *
        lineTracker.speed_ms ∧
    (lineTracker.get_current_position
        (1.5 * lineTracker.total_distance / lineTracker.speed_ms)).1 =
      Position.mk 0 45 ∧
    (lineTracker.get_current_position
        (1.5 * lineTracker.total_distance / lineTracker.speed_ms)).1 ≠
      Position.mk wpB.lat wpB.lon := by
  have hd : 0 < wpA.distance_to wpB := by
    rw [distance_wpA_wpB]
    have := Real.pi_pos
    positivity
  have hsms : 0 < lineTracker.speed_ms := by
    unfold lineTracker GPSTracker.speed_ms
    norm_num
  have hT : lineTracker.total_distance = wpA.distance_to wpB :=
    total_distance_pair wpA wpB 5
  have hTpos : 0 < lineTracker.total_distance := by rw [hT]; exact hd
  have hwrap : lineTracker.total_distance ≤
      (1.5 * lineTracker.total_distance / lineTracker.speed_ms) *
        lineTracker.speed_ms := by
    rw [div_mul_cancel₀ _ hsms.ne']
    linarith
  obtain ⟨hcomp, hpos⟩ := two_waypoint_wrap_eval wpA wpB 5
    (1.5 * lineTracker.total_distance / lineTracker.speed_ms)
    hd (by norm_num) hwrap
  have hlt : GPSTracker.mk [wpA, wpB] 5 = lineTracker := rfl
  rw [hlt] at hcomp hpos
  have htrav : (1.5 * lineTracker.total_distance / lineTracker.speed_ms) *
      lineTracker.speed_ms = 1.5 * (wpA.distance_to wpB) := by
    rw [div_mul_cancel₀ _ hsms.ne', hT]
  rw [htrav, pyMod_three_halves hd] at hpos
  have hhalf : 0.5 * (wpA.distance_to wpB) / (wpA.distance_to wpB) = 0.5 := by
    rw [mul_div_assoc, div_self hd.ne', mul_one]
  rw [hhalf] at hpos
  have hfst : (lineTracker.get_current_position
      (1.5 * lineTracker.total_distance / lineTracker.speed_ms)).1 =
      Position.mk 0 45 := by
    rw [hpos, interpolate_position_half]
    unfold wpA wpB
    simp only
    norm_num
  refine ⟨hcomp, hwrap, hfst, ?_⟩
  rw [hfst]
  unfold wpB
  simp only
  intro hcontra
  have := congrArg Position.lon hcontra
  simp at this

/-- Evaluation of any tracker whose route starts with a positive-length
segment when the effective traveled distance is zero: the walk stops in the
first segment at progress zero, i.e. at the first waypoint. -/
theorem position_of_traveled_zero (w0 w1 : Waypoint) (rest : List Waypoint)
    (speed : ℝ) (hd : 0 < w0.distance_to w1)
    (hT : ¬ (GPSTracker.mk (w0 :: w1 :: rest) speed).total_distance ≤ 0) :
    (GPSTracker.mk (w0 :: w1 :: rest) speed).get_current_position 0 =
      (Position.mk w0.lat w0.lon, 0) := by
  unfold GPSTracker.get_current_position
  simp only
  rw [zero_mul, if_neg hT]
  rw [routeSegments_cons]
  rw [segmentWalk_hit (by linarith : (0:ℝ) < 0 + w0.distance_to w1)]
  rw [show ((0:ℝ) - 0) / (w0.distance_to w1) = 0 by norm_num,
    interpolate_position_zero]

/-- Claim C8: for every loop route (at least 3 waypoints) whose first leg
has positive length and whose speed is positive, the position reported at
`elapsed = totalLength / speed` equals the position reported at
`elapsed = 0`, and both are the first waypoint. -/
theorem c8_wrap_round_trip (w0 w1 w2 : Waypoint) (rest : List Waypoint)
    (speed : ℝ) (hd : 0 < w0.distance_to w1) (hs : 0 < speed) :
    ((GPSTracker.mk (w0 :: w1 :: w2 :: rest) speed).get_current_position
        ((GPSTracker.mk (w0 :: w1 :: w2 :: rest) speed).total_distance /
          (GPSTracker.mk (w0 :: w1 :: w2 :: rest) speed).speed_ms)).1 =
      ((GPSTracker.mk (w0 :: w1 :: w2 :: rest) speed).get_current_position 0).1 ∧
    ((GPSTracker.mk (w0 :: w1 :: w2 :: rest) speed).get_current_position 0).1 =
      Position.mk w0.lat w0.lon := by
  have hsms : 0 < (GPSTracker.mk (w0 :: w1 :: w2 :: rest) speed).speed_ms :=
    mul_pos hs (by norm_num)
  have hTpos : 0 < (GPSTracker.mk (w0 :: w1 :: w2 :: rest) speed).total_distance := by
    unfold GPSTracker.total_distance GPSTracker.calculate_total_distance
    rw [show (GPSTracker.mk (w0 :: w1 :: w2 :: rest) speed).waypoints =
      w0 :: w1 :: w2 :: rest from rfl]
    rw [show consecutiveDistance (w0 :: w1 :: w2 :: rest) =
      w0.distance_to w1 + consecutiveDistance (w1 :: w2 :: rest) from rfl]
    have h1 := consecutiveDistance_nonneg (w1 :: w2 :: rest)
    split_ifs with hlen
    · have h2 := distance_to_nonneg
        ((w0 :: w1 :: w2 :: rest).getLastD ⟨0, 0⟩)
        ((w0 :: w1 :: w2 :: rest).headD ⟨0, 0⟩)
      linarith
    · linarith
  have h0 := position_of_traveled_zero w0 w1 (w2 :: rest) speed hd
    (not_le.mpr hTpos)
  have hfull : (GPSTracker.mk (w0 :: w1 :: w2 :: rest) speed).get_current_position
      ((GPSTracker.mk (w0 :: w1 :: w2 :: rest) speed).total_distance /
        (GPSTracker.mk (w0 :: w1 :: w2 :: rest) speed).speed_ms) =
      (Position.mk w0.lat w0.lon, 0) := by
    unfold GPSTracker.get_current_position
    simp only
    rw [div_mul_cancel₀ _ hsms.ne']
    rw [if_pos le_rfl, pyMod_self hTpos.ne']
    rw [routeSegments_cons]
    rw [segmentWalk_hit (by linarith : (0:ℝ) < 0 + w0.distance_to w1)]
    rw [show ((0:ℝ) - 0) / (w0.distance_to w1) = 0 by norm_num,
      interpolate_position_zero]
  rw [hfull, h0]
  exact ⟨rfl, rfl⟩

/-- Claim C8 (witness): the round trip at the concrete triangle route
`[(0,0), (0,90), (45,90)]` at 5 knots. -/
theorem c8_wrap_round_trip_witness :
    0 < wpA.distance_to wpB ∧ (0:ℝ) < 5 ∧
    ((triTracker.get_current_position
        (triTracker.total_distance / triTracker.speed_ms)).1 =
      (triTracker.get_current_position 0).1 ∧
    (triTracker.get_current_position 0).1 = Position.mk wpA.lat wpA.lon) := by
  have hd : 0 < wpA.distance_to wpB := by
    rw [distance_wpA_wpB]
    have := Real.pi_pos
    positivity
  exact ⟨hd, by norm_num, c8_wrap_round_trip wpA wpB wpC [] 5 hd (by norm_num)⟩

/-- When the (unwrapped) traveled distance falls strictly inside the span of
segment `j`, `get_current_position` interpolates inside that segment and
caches `j` as the current waypoint index. -/
theorem get_current_position_locates (t : GPSTracker) (elapsed : ℝ) (j : ℕ)
    (hj : j < (routeSegments t.waypoints).length)
    (hnw : elapsed * t.speed_ms < t.total_distance)
    (hlow : segDistSum ((routeSegments t.waypoints).take j) ≤
      elapsed * t.speed_ms)
    (hhigh : elapsed * t.speed_ms <
      segDistSum ((routeSegments t.waypoints).take (j + 1))) :
    t.get_current_position elapsed =
      (interpolate_position ((routeSegments t.waypoints).get ⟨j, hj⟩).1
        ((routeSegments t.waypoints).get ⟨j, hj⟩).2
        ((elapsed * t.speed_ms -
            segDistSum ((routeSegments t.waypoints).take j)) /
          (((routeSegments t.waypoints).get ⟨j, hj⟩).1.distance_to
            ((routeSegments t.waypoints).get ⟨j, hj⟩).2)), j) := by
  unfold GPSTracker.get_current_position
  simp only
  rw [if_neg (not_le.mpr hnw)]
  have hw := segmentWalk_locate (routeSegments t.waypoints) j hj
    (elapsed * t.speed_ms) 0 0
    (by rw [add_zero]; exact hlow) (by rw [add_zero]; exact hhigh)
  rw [hw]
  simp only [zero_add, add_zero]

theorem routeSegments_length (wps : List Waypoint) :
    (routeSegments wps).length = wps.length := by
  unfold routeSegments
  rw [List.length_zip, List.length_rotate, min_self]

theorem routeSegments_get_lt (wps : List Waypoint) (j : ℕ)
    (hj : j < (routeSegments wps).length) (hlt : j + 1 < wps.length) :
    (routeSegments wps).get ⟨j, hj⟩ =
      (wps.getD j ⟨0, 0⟩, wps.getD (j + 1) ⟨0, 0⟩) := by
  have hjw : j < wps.length := by omega
  have hjr : j < (wps.rotate 1).length := by
    rw [List.length_rotate]; omega
  unfold routeSegments
  rw [List.get_zip]
  have h1 : (wps.rotate 1).get ⟨j, hjr⟩ = wps.get ⟨(j + 1) % wps.length, by
      exact Nat.mod_lt _ (by omega)⟩ := by
    rw [List.get_rotate]
  have h2 : (j + 1) % wps.length = j + 1 := Nat.mod_eq_of_lt hlt
  rw [List.getD_eq_getElem _ _ hjw, List.getD_eq_getElem _ _ hlt]
  refine Prod.ext ?_ ?_
  · simp [List.get_eq_getElem]
  · show (wps.rotate 1).get ⟨j, hjr⟩ = _
    rw [h1]
    simp only [List.get_eq_getElem]
    congr 1

/-- Claim C4 (amended): on a loop route, while the snapshot lies strictly
inside segment `j` the cached index is `j`, and the reported heading is the
initial bearing of that segment whenever `j` is one of the listed segments
(`j + 1 < n`); but while the snapshot lies in the closing segment
(`j = n - 1`, from the last waypoint back to the first) the reported heading
is the bearing of the last listed segment `waypoints[n-2] → waypoints[n-1]`,
not the closing segment's own bearing. -/
theorem c4_heading_per_segment (t : GPSTracker) (elapsed : ℝ) (j : ℕ)
    (hj : j < (routeSegments t.waypoints).length)
    (hnw : elapsed * t.speed_ms < t.total_distance)
    (hlow : segDistSum ((routeSegments t.waypoints).take j) ≤
      elapsed * t.speed_ms)
    (hhigh : elapsed * t.speed_ms <
      segDistSum ((routeSegments t.waypoints).take (j + 1))) :
    (t.get_current_position elapsed).2 = j ∧
    (j + 1 < t.waypoints.length →
      t.get_current_heading (t.get_current_position elapsed).2 =
        ((routeSegments t.waypoints).get ⟨j, hj⟩).1.bearing_to
          ((routeSegments t.waypoints).get ⟨j, hj⟩).2) ∧
    (j = t.waypoints.length - 1 → 2 ≤ t.waypoints.length →
      t.get_current_heading (t.get_current_position elapsed).2 =
        (t.waypoints.getD (t.waypoints.length - 2) ⟨0, 0⟩).bearing_to
          (t.waypoints.getD (t.waypoints.length - 1) ⟨0, 0⟩)) := by
  have hpos := get_current_position_locates t elapsed j hj hnw hlow hhigh
  have hidx : (t.get_current_position elapsed).2 = j := by rw [hpos]
  refine ⟨hidx, ?_, ?_⟩
  · intro hlt
    rw [hidx]
    unfold GPSTracker.get_current_heading
    rw [if_neg (by omega)]
    rw [routeSegments_get_lt t.waypoints j hj hlt]
  · intro heq hlen
    rw [hidx]
    unfold GPSTracker.get_current_heading
    rw [if_pos (by omega), if_pos (by omega)]

/-- The traveled distance `d01 + d12 + d20/2` lies strictly inside the
closing segment of the concrete triangle route. -/
theorem tri_walk_bounds :
    (((wpA.distance_to wpB + wpB.distance_to wpC + wpC.distance_to wpA / 2) /
        triTracker.speed_ms) * triTracker.speed_ms <
      triTracker.total_distance) ∧
    segDistSum ((routeSegments triTracker.waypoints).take 2) ≤
      ((wpA.distance_to wpB + wpB.distance_to wpC + wpC.distance_to wpA / 2) /
        triTracker.speed_ms) * triTracker.speed_ms ∧
    ((wpA.distance_to wpB + wpB.distance_to wpC + wpC.distance_to wpA / 2) /
        triTracker.speed_ms) * triTracker.speed_ms <
      segDistSum ((routeSegments triTracker.waypoints).take 3) := by
  have hsms : 0 < triTracker.speed_ms := by
    unfold triTracker GPSTracker.speed_ms
    norm_num
  have hd20 : 0 < wpC.distance_to wpA := by
    rw [distance_wpC_wpA]
    have := Real.pi_pos
    positivity
  have hT : triTracker.total_distance =
      wpA.distance_to wpB + wpB.distance_to wpC + wpC.distance_to wpA :=
    total_distance_triple wpA wpB wpC 5
  have hseg : routeSegments triTracker.waypoints =
      [(wpA, wpB), (wpB, wpC), (wpC, wpA)] := rfl
  have htrav : ((wpA.distance_to wpB + wpB.distance_to wpC +
      wpC.distance_to wpA / 2) / triTracker.speed_ms) * triTracker.speed_ms =
      wpA.distance_to wpB + wpB.distance_to wpC + wpC.distance_to wpA / 2 :=
    div_mul_cancel₀ _ hsms.ne'
  rw [htrav, hT, hseg]
  rw [show List.take 2 [(wpA, wpB), (wpB, wpC), (wpC, wpA)] =
    [(wpA, wpB), (wpB, wpC)] from rfl]
  rw [show List.take 3 [(wpA, wpB), (wpB, wpC), (wpC, wpA)] =
    [(wpA, wpB), (wpB, wpC), (wpC, wpA)] from rfl]
  simp only [segDistSum_cons, segDistSum_nil]
  refine ⟨by linarith, by linarith, by linarith⟩

/-- Claim C4 (witness): the amended statement at the triangle route
`[(0,0), (0,90), (45,90)]`, 5 knots, with the snapshot inside the closing
segment (`j = 2`). -/
theorem c4_heading_per_segment_witness :
    (2 < (routeSegments triTracker.waypoints).length) ∧
    ((((wpA.distance_to wpB + wpB.distance_to wpC + wpC.distance_to wpA / 2) /
        triTracker.speed_ms) * triTracker.speed_ms <
      triTracker.total_distance) ∧
    segDistSum ((routeSegments triTracker.waypoints).take 2) ≤
      ((wpA.distance_to wpB + wpB.distance_to wpC + wpC.distance_to wpA / 2) /
        triTracker.speed_ms) * triTracker.speed_ms ∧
    ((wpA.distance_to wpB + wpB.distance_to wpC + wpC.distance_to wpA / 2) /
        triTracker.speed_ms) * triTracker.speed_ms <
      segDistSum ((routeSegments triTracker.waypoints).take 3)) ∧
    ((triTracker.get_current_position
        ((wpA.distance_to wpB + wpB.distance_to wpC + wpC.distance_to wpA / 2) /
          triTracker.speed_ms)).2 = 2 ∧
      triTracker.get_current_heading
        (triTracker.get_current_position
          ((wpA.distance_to wpB + wpB.distance_to wpC +
            wpC.distance_to wpA / 2) / triTracker.speed_ms)).2 =
        (triTracker.waypoints.getD 1 ⟨0, 0⟩).bearing_to
          (triTracker.waypoints.getD 2 ⟨0, 0⟩)) := by
  obtain ⟨hnw, hlow, hhigh⟩ := tri_walk_bounds
  have hj : (2:ℕ) < (routeSegments triTracker.waypoints).length := by
    rw [routeSegments_length]
    norm_num [triTracker]
  obtain ⟨hidx, hmid, hclose⟩ := c4_heading_per_segment triTracker
    ((wpA.distance_to wpB + wpB.distance_to wpC + wpC.distance_to wpA / 2) /
      triTracker.speed_ms) 2 hj hnw hlow hhigh
  exact ⟨hj, ⟨hnw, hlow, hhigh⟩, hidx, hclose rfl (by norm_num [triTracker])⟩

/-- Claim C4 (counterexample): on the triangle route `[(0,0), (0,90),
(45,90)]` at 5 knots, with the snapshot inside the closing segment
`(45,90) → (0,0)` (cached index 2), the reported heading is `0` — the
bearing of the last listed segment `(0,90) → (45,90)` — while the occupied
segment's initial bearing is `270`; the claim's "heading equals the bearing
of the segment currently occupied, including the closing segment" fails. -/
theorem c4_closing_heading_counterexample :
    (routeSegments triTracker.waypoints).getD 2 (wpA, wpA) = (wpC, wpA) ∧
    (triTracker.get_current_position
        ((wpA.distance_to wpB + wpB.distance_to wpC + wpC.distance_to wpA / 2) /
          triTracker.speed_ms)).2 = 2 ∧
    triTracker.get_current_heading 2 = 0 ∧
    wpC.bearing_to wpA = 270 ∧
    triTracker.get_current_heading 2 ≠ wpC.bearing_to wpA := by
  obtain ⟨hnw, hlow, hhigh⟩ := tri_walk_bounds
  have hj : (2:ℕ) < (routeSegments triTracker.waypoints).length := by
    rw [routeSegments_length]
    norm_num [triTracker]
  have hpos := get_current_position_locates triTracker
    ((wpA.distance_to wpB + wpB.distance_to wpC + wpC.distance_to wpA / 2) /
      triTracker.speed_ms) 2 hj hnw hlow hhigh
  have hidx : (triTracker.get_current_position
      ((wpA.distance_to wpB + wpB.distance_to wpC + wpC.distance_to wpA / 2) /
        triTracker.speed_ms)).2 = 2 := by rw [hpos]
  have hh : triTracker.get_current_heading 2 = wpB.bearing_to wpC := rfl
  refine ⟨rfl, hidx, ?_, bearing_wpC_wpA, ?_⟩
  · rw [hh, bearing_wpB_wpC]
  · rw [hh, bearing_wpB_wpC, bearing_wpC_wpA]
    norm_num

/-- Claim C2: the total route length is the sum of the consecutive-pair
distances, plus the last-to-first closing leg exactly when the route has
more than 2 waypoints; and for a rectangle route (closed by textual
repetition of the SW corner) the total length is exactly the perimeter of
the four sides — the closing leg adds the zero distance from the repeated
corner to itself, so it is not double-counted. -/
theorem c2_total_distance_spec :
    (∀ t : GPSTracker, t.total_distance =
      ((t.waypoints.zip t.waypoints.tail).map
        fun p => p.1.distance_to p.2).sum +
        (if 2 < t.waypoints.length then
          (t.waypoints.getLastD ⟨0, 0⟩).distance_to (t.waypoints.headD ⟨0, 0⟩)
        else 0)) ∧
    (∀ center_lat center_lon width_nm height_nm speed : ℝ,
      (GPSTracker.mk (RouteConfig.create_rectangle_route center_lat center_lon
          width_nm height_nm) speed).total_distance =
        (Waypoint.mk (center_lat - height_nm / 60.0 / 2)
            (center_lon - width_nm / 60.0 / 2)).distance_to
          (Waypoint.mk (center_lat - height_nm / 60.0 / 2)
            (center_lon + width_nm / 60.0 / 2)) +
        (Waypoint.mk (center_lat - height_nm / 60.0 / 2)
            (center_lon + width_nm / 60.0 / 2)).distance_to
          (Waypoint.mk (center_lat + height_nm / 60.0 / 2)
            (center_lon + width_nm / 60.0 / 2)) +
        (Waypoint.mk (center_lat + height_nm / 60.0 / 2)
            (center_lon + width_nm / 60.0 / 2)).distance_to
          (Waypoint.mk (center_lat + height_nm / 60.0 / 2)
            (center_lon - width_nm / 60.0 / 2)) +
        (Waypoint.mk (center_lat + height_nm / 60.0 / 2)
            (center_lon - width_nm / 60.0 / 2)).distance_to
          (Waypoint.mk (center_lat - height_nm / 60.0 / 2)
            (center_lon - width_nm / 60.0 / 2))) := by
  constructor
  · intro t
    unfold GPSTracker.total_distance GPSTracker.calculate_total_distance
    rw [consecutiveDistance_eq_zip_sum]
  · intro center_lat center_lon width_nm height_nm speed
    unfold GPSTracker.total_distance GPSTracker.calculate_total_distance
      RouteConfig.create_rectangle_route
    simp only [consecutiveDistance, List.length_cons, List.length_nil,
      List.getLastD_cons, List.getLastD_nil, List.headD_cons]
    rw [if_pos (by norm_num)]
    rw [distance_to_self]
    ring

/-- Claim C5 (counterexample): `create_circular_route` called with
`num_points = 2` (below the claimed minimum of 3) does not fail with any
route-configuration error — it successfully returns a 2-point list. -/
theorem c5_circular_two_points_counterexample :
    (RouteConfig.create_circular_route 0 0 1 2).isOk = true ∧
    (RouteConfig.create_circular_route 0 0 1 2).toOption.map List.length =
      some 2 := ⟨rfl, rfl⟩

/-- Claim C5 (amended): the route generators perform no parameter
validation and never raise a route-configuration error: the line generator
fails only with a `ZeroDivisionError` at `num_points = 1` (from
`i / (num_points - 1)`), and silently returns a too-short list for any
other `num_points < 2`; the circular generator succeeds for every
`num_points`, returning exactly `num_points` waypoints; the only validation
is in the tracker constructor, which raises `ValueError` exactly when the
route has fewer than 2 waypoints. -/
theorem c5_no_generator_validation :
    (∀ a b c d : ℝ, RouteConfig.create_line_route a b c d 1 =
      Except.error PyError.zeroDivisionError) ∧
    (∀ a b c d : ℝ, ∀ n : ℕ, n ≠ 1 →
      (RouteConfig.create_line_route a b c d n).isOk = true ∧
      (RouteConfig.create_line_route a b c d n).toOption.map List.length =
        some n) ∧
    (∀ a b r : ℝ, ∀ n : ℕ,
      (RouteConfig.create_circular_route a b r n).isOk = true ∧
      (RouteConfig.create_circular_route a b r n).toOption.map List.length =
        some n) ∧
    (∀ (wps : List Waypoint) (speed : ℝ),
      (wps.length < 2 →
        GPSTracker.init wps speed = Except.error PyError.valueError) ∧
      (2 ≤ wps.length →
        GPSTracker.init wps speed = Except.ok ⟨wps, speed⟩)) := by
  refine ⟨?_, ?_, ?_, ?_⟩
  · intro a b c d
    unfold RouteConfig.create_line_route
    rw [if_pos rfl]
  · intro a b c d n hn
    unfold RouteConfig.create_line_route
    rw [if_neg hn]
    exact ⟨rfl, by simp [Except.toOption]⟩
  · intro a b r n
    unfold RouteConfig.create_circular_route
    exact ⟨rfl, by simp [Except.toOption]⟩

  · intro wps speed
    unfold GPSTracker.init
    constructor
    · intro h
      rw [if_pos h]
    · intro h
      rw [if_neg (by omega)]

/-- Claim C5 (witness): the amended statement at concrete inputs — the
line generator at `num_points = 0` returns an empty route without error,
the empty route is rejected by the tracker constructor, and a 2-waypoint
route is accepted. -/
theorem c5_no_generator_validation_witness :
    ((0:ℕ) ≠ 1 ∧
      (RouteConfig.create_line_route 0 0 1 1 0).isOk = true ∧
      (RouteConfig.create_line_route 0 0 1 1 0).toOption.map List.length =
        some 0) ∧
    (([] : List Waypoint).length < 2 ∧
      GPSTracker.init [] 5 = Except.error PyError.valueError) ∧
    (2 ≤ ([wpA, wpB] : List Waypoint).length ∧
      GPSTracker.init [wpA, wpB] 5 = Except.ok ⟨[wpA, wpB], 5⟩) := by
  refine ⟨⟨by decide, c5_no_generator_validation.2.1 0 0 1 1 0 (by decide)⟩,
    ⟨by decide, (c5_no_generator_validation.2.2.2 [] 5).1 (by decide)⟩,
    ⟨by decide, (c5_no_generator_validation.2.2.2 [wpA, wpB] 5).2 (by decide)⟩⟩

/-! Claim C9 support: the environment invariant. -/

theorem pyModQ_eq_mul_fract {x y : ℚ} (hy : y ≠ 0) :
    pyModQ x y = y * Int.fract (x / y) := by
  unfold pyModQ Int.fract
  field_simp

theorem pyModQ_nonneg {x y : ℚ} (hy : 0 < y) : 0 ≤ pyModQ x y := by
  rw [pyModQ_eq_mul_fract hy.ne']
  exact mul_nonneg hy.le (Int.fract_nonneg _)

theorem pyModQ_lt {x y : ℚ} (hy : 0 < y) : pyModQ x y < y := by
  rw [pyModQ_eq_mul_fract hy.ne']
  calc y * Int.fract (x / y) < y * 1 :=
        (mul_lt_mul_left hy).mpr (Int.fract_lt_one _)
    _ = y := mul_one y

theorem update_environmental_data_invariant (s : EnvState) (t : EnvTick) :
    (NMEASimulator.update_environmental_data s t).invariantOk := by
  unfold NMEASimulator.update_environmental_data EnvState.invariantOk
  refine ⟨pyModQ_nonneg (by norm_num), pyModQ_lt (by norm_num),
    le_max_left 0 _, le_max_left 0 _, le_max_left 0.1 _,
    le_max_left 0 _, le_max_left 0 _⟩

/-- Claim C9: starting from the seed values of `NMEASimulator.__init__`,
after any sequence of environment ticks (each a tuple of bounded uniform
perturbations) the state satisfies: the wind direction lies in `[0, 360)`,
wind speed, water temperature, engine RPM and engine pitch are nonnegative,
and the depth is at least its `0.1` floor. -/
theorem c9_environment_invariant (ticks : List EnvTick)
    (hb : ∀ t ∈ ticks, t.inRange) :
    (ticks.foldl NMEASimulator.update_environmental_data
      NMEASimulator.initialEnv).invariantOk := by
  clear hb
  suffices h : ∀ s : EnvState, s.invariantOk →
      (ticks.foldl NMEASimulator.update_environmental_data s).invariantOk by
    apply h
    unfold NMEASimulator.initialEnv EnvState.invariantOk
    norm_num
  induction ticks with
  | nil => intro s hs; exact hs
  | cons t rest ih =>
    intro s hs
    exact ih _ (update_environmental_data_invariant s t)

/-- Claim C9 (witness): the invariant after one maximal-amplitude tick. -/
theorem c9_environment_invariant_witness :
    (∀ t ∈ [EnvTick.mk 2 1 0.2 0.1 5 0.5], t.inRange) ∧
    ([EnvTick.mk 2 1 0.2 0.1 5 0.5].foldl
        NMEASimulator.update_environmental_data
        NMEASimulator.initialEnv).invariantOk := by
  have hb : ∀ t ∈ [EnvTick.mk 2 1 0.2 0.1 5 0.5], t.inRange := by
    intro t ht
    simp only [List.mem_singleton] at ht
    subst ht
    unfold EnvTick.inRange
    norm_num [abs_le]
  exact ⟨hb, c9_environment_invariant _ hb⟩

/-! Claim C7: NMEA latitude/longitude formatting. -/

theorem ratLit_51522 :
    (51.522 : ℚ) = Rat.mk' 25761 500 (by norm_num) (by decide) := by
  rw [Rat.mk'_eq_divInt, Rat.divInt_eq_div]
  norm_num

theorem ratLit_1284 :
    (12.84 : ℚ) = Rat.mk' 321 25 (by norm_num) (by decide) := by
  rw [Rat.mk'_eq_divInt, Rat.divInt_eq_div]
  norm_num

/-- Claim C7: `to_nmea_lat`/`to_nmea_lon` split the absolute value into
zero-padded whole degrees (2 digits for latitude, 3 for longitude) and
decimal minutes (fractional degrees times 60, 6 decimal places, width 9),
with the hemisphere letter derived from the sign; in particular the
position `lat = -33.8587`, `lon = 151.2140` renders latitude
`"3351.522000"`/`"S"` and longitude `"15112.840000"`/`"E"`. -/
theorem c7_nmea_lat_lon_formatting :
    Position.to_nmea_lat ⟨-33.8587, 151.2140⟩ = ("3351.522000", "S") ∧
    Position.to_nmea_lon ⟨-33.8587, 151.2140⟩ = ("15112.840000", "E") ∧
    (∀ p : Position ℚ,
      (p.to_nmea_lat).2 = (if 0 ≤ p.lat then "N" else "S") ∧
      (p.to_nmea_lon).2 = (if 0 ≤ p.lon then "E" else "W")) ∧
    (∀ p : Position ℚ,
      (p.to_nmea_lat).1 =
        pyFmt0d 2 ⌊if p.lat < 0 then -p.lat else p.lat⌋ ++
          pyPad0 9 (pyFmtFixed
            (((if p.lat < 0 then -p.lat else p.lat) -
              ((⌊if p.lat < 0 then -p.lat else p.lat⌋ : ℤ) : ℚ)) * 60) 6) ∧
      (p.to_nmea_lon).1 =
        pyFmt0d 3 ⌊if p.lon < 0 then -p.lon else p.lon⌋ ++
          pyPad0 9 (pyFmtFixed
            (((if p.lon < 0 then -p.lon else p.lon) -
              ((⌊if p.lon < 0 then -p.lon else p.lon⌋ : ℤ) : ℚ)) * 60) 6)) := by
  refine ⟨?_, ?_, fun p => ⟨rfl, rfl⟩, fun p => ⟨rfl, rfl⟩⟩
  · unfold Position.to_nmea_lat
    simp only
    rw [if_pos (by norm_num : (-33.8587 : ℚ) < 0),
      if_neg (by norm_num : ¬ (0:ℚ) ≤ -33.8587)]
    rw [show -(-33.8587 : ℚ) = 33.8587 by norm_num]
    rw [show ⌊(33.8587 : ℚ)⌋ = 33 by norm_num [Int.floor_eq_iff]]
    rw [show ((33.8587 : ℚ) - ((33 : ℤ) : ℚ)) * 60 = 51.522 by norm_num]
    rw [ratLit_51522]
    decide
  · unfold Position.to_nmea_lon
    simp only
    rw [if_neg (by norm_num : ¬ (151.2140 : ℚ) < 0),
      if_pos (by norm_num : (0:ℚ) ≤ 151.2140)]
    rw [show ⌊(151.2140 : ℚ)⌋ = 151 by norm_num [Int.floor_eq_iff]]
    rw [show ((151.2140 : ℚ) - ((151 : ℤ) : ℚ)) * 60 = 12.84 by norm_num]
    rw [ratLit_1284]
    decide

/-! Character-class lemmas for the rendering helpers. -/

theorem getD_pred {P : Char → Prop} {l : List Char} {d : Char} (hd : P d)
    (hl : ∀ c ∈ l, P c) (n : ℕ) : P (l.getD n d) := by
  rcases lt_or_ge n l.length with h | h
  · rw [List.getD_eq_getElem _ _ h]
    exact hl _ (List.getElem_mem h)
  · rw [List.getD_eq_default _ _ h]
    exact hd

theorem natDigitsAux_pred {P : Char → Prop}
    (hdig : ∀ m : ℕ, P (pyDigitChar m)) :
    ∀ (fuel n : ℕ) (acc : List Char), (∀ c ∈ acc, P c) →
      ∀ c ∈ natDigitsAux fuel n acc, P c := by
  intro fuel
  induction fuel with
  | zero => intro n acc hacc c hc; exact hacc c hc
  | succ f ih =>
    intro n acc hacc c hc
    rw [show natDigitsAux (f + 1) n acc =
      (if n < 10 then pyDigitChar n :: acc
       else natDigitsAux f (n / 10) (pyDigitChar (n % 10) :: acc)) from rfl] at hc
    split_ifs at hc with h
    · rcases List.mem_cons.mp hc with h1 | h1
      · rw [h1]; exact hdig n
      · exact hacc c h1
    · refine ih (n / 10) (pyDigitChar (n % 10) :: acc) ?_ c hc
      intro c hc2
      rcases List.mem_cons.mp hc2 with h1 | h1
      · rw [h1]; exact hdig (n % 10)
      · exact hacc c h1

theorem hexDigitsAux_pred {P : Char → Prop}
    (hdig : ∀ m : ℕ, P (pyHexDigitChar m)) :
    ∀ (fuel n : ℕ) (acc : List Char), (∀ c ∈ acc, P c) →
      ∀ c ∈ hexDigitsAux fuel n acc, P c := by
  intro fuel
  induction fuel with
  | zero => intro n acc hacc c hc; exact hacc c hc
  | succ f ih =>
    intro n acc hacc c hc
    rw [show hexDigitsAux (f + 1) n acc =
      (if n < 16 then pyHexDigitChar n :: acc
       else hexDigitsAux f (n / 16) (pyHexDigitChar (n % 16) :: acc)) from
        rfl] at hc
    split_ifs at hc with h
    · rcases List.mem_cons.mp hc with h1 | h1
      · rw [h1]; exact hdig n
      · exact hacc c h1
    · refine ih (n / 16) (pyHexDigitChar (n % 16) :: acc) ?_ c hc
      intro c hc2
      rcases List.mem_cons.mp hc2 with h1 | h1
      · rw [h1]; exact hdig (n % 16)
      · exact hacc c h1

theorem natToStr_pred {P : Char → Prop} (hdig : ∀ m : ℕ, P (pyDigitChar m))
    (n : ℕ) : ∀ c ∈ (natToStr n).data, P c := by
  apply natDigitsAux_pred hdig
  intro c hc
  exact absurd hc (List.not_mem_nil c)

theorem intToStr_pred {P : Char → Prop} (hdig : ∀ m : ℕ, P (pyDigitChar m))
    (hminus : P ('-')) (i : ℤ) : ∀ c ∈ (intToStr i).data, P c := by
  unfold intToStr
  split_ifs with h
  · intro c hc
    rw [String.data_append] at hc
    rcases List.mem_append.mp hc with h1 | h1
    · simp only [List.mem_singleton,
        show ("-" : String).data = ['-'] from rfl] at h1
      rw [h1]; exact hminus
    · exact natToStr_pred hdig _ c h1
  · exact natToStr_pred hdig _

theorem pyDigitChar_ascii (m : ℕ) : (pyDigitChar m).toNat < 128 :=
  getD_pred (P := fun c => c.toNat < 128) (by decide) (by decide) m

theorem pyDigitChar_ne_comma (m : ℕ) : pyDigitChar m ≠ (',') :=
  getD_pred (P := fun c => c ≠ (',')) (by decide) (by decide) m

theorem joinComma_count_comma :
    ∀ l : List String, (∀ s ∈ l, ∀ c ∈ s.data, c ≠ (',')) → l ≠ [] →
      ((joinComma l).data.count (',')) = l.length - 1 := by
  intro l
  induction l with
  | nil => intro _ h; exact absurd rfl h
  | cons s rest ih =>
    intro hfree _
    cases rest with
    | nil =>
      rw [show joinComma [s] = s from rfl]
      simp only [List.length_cons, List.length_nil]
      rw [List.count_eq_zero]
      exact fun hc => hfree s (by simp) (',') hc rfl
    | cons s2 rest2 =>
      rw [show joinComma (s :: s2 :: rest2) = s ++ "," ++
        joinComma (s2 :: rest2) from rfl]
      rw [String.data_append, String.data_append]
      rw [List.count_append, List.count_append]
      have h1 : s.data.count (',') = 0 := by
        rw [List.count_eq_zero]
        exact fun hc => hfree s (by simp) (',') hc rfl
      have h2 : ((("," : String)).data.count (',')) = 1 := rfl
      have h3 := ih (fun t ht => hfree t (List.mem_cons_of_mem s ht))
        (by simp)
      rw [h1, h2, h3]
      simp only [List.length_cons]
      omega

/-- Claim C10: the DOP/active-satellites sentence renders exactly 12
comma-separated satellite slots for IDs 1..12: slot `i` carries the decimal
ID `i+1` exactly when that ID is in the satellite list, and is empty
otherwise; the rendered field depends only on which of the IDs 1..12 are
present, so IDs outside 1..12 (such as 15 and 22 in the server's own list)
are silently omitted. -/
theorem c10_gsa_satellite_slots :
    (∀ sats : List ℤ, (GPGSA.slots sats).length = 12) ∧
    (∀ sats : List ℤ, ∀ i : ℕ, ∀ h : i < (GPGSA.slots sats).length,
      (GPGSA.slots sats).get ⟨i, h⟩ =
        if ((i + 1 : ℕ) : ℤ) ∈ sats then intToStr ((i + 1 : ℕ) : ℤ)
        else "") ∧
    (∀ sats : List ℤ,
      ((GPGSA.sat_list sats).data.count (',')) = 11) ∧
    (∀ sats sats' : List ℤ,
      (∀ s : ℤ, 1 ≤ s → s ≤ 12 → (s ∈ sats ↔ s ∈ sats')) →
      GPGSA.sat_list sats = GPGSA.sat_list sats') ∧
    GPGSA.sat_list [8, 11, 15, 22] = ",,,,,,,8,,,11," := by
  have hlen : ∀ sats : List ℤ, (GPGSA.slots sats).length = 12 := by
    intro sats
    unfold GPGSA.slots
    rw [List.length_map, List.length_range']
  have hfree : ∀ sats : List ℤ, ∀ s ∈ GPGSA.slots sats,
      ∀ c ∈ s.data, c ≠ (',') := by
    intro sats s hs c hc
    unfold GPGSA.slots at hs
    rcases List.mem_map.mp hs with ⟨sat, _, hmap⟩
    rw [← hmap] at hc
    split_ifs at hc with h
    · exact intToStr_pred (P := fun c => c ≠ (',')) pyDigitChar_ne_comma
        (by decide) _ c hc
    · exact absurd hc (by simp)
  refine ⟨hlen, ?_, ?_, ?_, by decide⟩
  · intro sats i h
    unfold GPGSA.slots
    simp only [List.get_eq_getElem, List.getElem_map]
    congr 2 <;>
      rw [List.getElem_range'] <;> omega
  · intro sats
    unfold GPGSA.sat_list
    rw [joinComma_count_comma (GPGSA.slots sats) (hfree sats)
      (by intro hnil; have := hlen sats; rw [hnil] at this; simp at this)]
    rw [hlen]
  · intro sats sats' h
    unfold GPGSA.sat_list GPGSA.slots
    congr 1
    apply List.map_congr_left
    intro sat hsat
    have hb : 1 ≤ sat ∧ sat < 1 + 12 := List.mem_range'_1.mp hsat
    have h1 : (1 : ℤ) ≤ (sat : ℤ) := by exact_mod_cast hb.1
    have h2 : (sat : ℤ) ≤ 12 := by
      have := hb.2
      omega
    by_cases hmem : (sat : ℤ) ∈ sats
    · rw [if_pos hmem, if_pos ((h _ h1 h2).mp hmem)]
    · rw [if_neg hmem, if_neg (fun hx => hmem ((h _ h1 h2).mpr hx))]

/-! ASCII facts about the rendering helpers (claim C3). -/

theorem asciiStr_literal {s : String}
    (h : s.data.all (fun c => decide (c.toNat < 128)) = true) : asciiStr s := by
  unfold asciiStr
  intro c hc
  exact of_decide_eq_true (List.all_eq_true.mp h c hc)

theorem asciiStr_append (a b : String) :
    asciiStr (a ++ b) ↔ asciiStr a ∧ asciiStr b := by
  unfold asciiStr
  rw [String.data_append]
  constructor
  · intro h
    exact ⟨fun c hc => h c (List.mem_append_left _ hc),
      fun c hc => h c (List.mem_append_right _ hc)⟩
  · rintro ⟨h1, h2⟩ c hc
    rcases List.mem_append.mp hc with h | h
    · exact h1 c h
    · exact h2 c h

theorem ascii_natToStr (n : ℕ) : asciiStr (natToStr n) :=
  natToStr_pred (P := fun c => c.toNat < 128) pyDigitChar_ascii n

theorem ascii_intToStr (i : ℤ) : asciiStr (intToStr i) :=
  intToStr_pred (P := fun c => c.toNat < 128) pyDigitChar_ascii (by decide) i

theorem ascii_pyPad0 {s : String} (w : ℕ) (h : asciiStr s) :
    asciiStr (pyPad0 w s) := by
  unfold pyPad0 asciiStr
  intro c hc
  rcases List.mem_append.mp hc with h1 | h1
  · rw [List.eq_of_mem_replicate h1]
    decide
  · exact h c h1

theorem ascii_pyFmt0d (w : ℕ) (n : ℤ) : asciiStr (pyFmt0d w n) :=
  ascii_pyPad0 w (ascii_intToStr n)

theorem ascii_pyFmtFixed (q : ℚ) (p : ℕ) : asciiStr (pyFmtFixed q p) := by
  unfold pyFmtFixed
  simp only
  split_ifs with h1 h2 h3
  · rw [asciiStr_append]
    exact ⟨asciiStr_literal (by decide), ascii_natToStr _⟩
  · rw [asciiStr_append]
    exact ⟨asciiStr_literal (by decide), ascii_natToStr _⟩
  · rw [asciiStr_append, asciiStr_append, asciiStr_append]
    exact ⟨⟨⟨asciiStr_literal (by decide), ascii_natToStr _⟩,
      asciiStr_literal (by decide)⟩, ascii_pyPad0 _ (ascii_natToStr _)⟩
  · rw [asciiStr_append, asciiStr_append, asciiStr_append]
    exact ⟨⟨⟨asciiStr_literal (by decide), ascii_natToStr _⟩,
      asciiStr_literal (by decide)⟩, ascii_pyPad0 _ (ascii_natToStr _)⟩

theorem ascii_to_nmea_lat_fst (p : Position ℚ) :
    asciiStr (p.to_nmea_lat).1 := by
  unfold Position.to_nmea_lat
  simp only
  rw [asciiStr_append]
  exact ⟨ascii_pyFmt0d _ _, ascii_pyPad0 _ (ascii_pyFmtFixed _ _)⟩

theorem ascii_to_nmea_lat_snd (p : Position ℚ) :
    asciiStr (p.to_nmea_lat).2 := by
  unfold Position.to_nmea_lat
  simp only
  split_ifs <;> exact asciiStr_literal (by decide)

theorem ascii_to_nmea_lon_fst (p : Position ℚ) :
    asciiStr (p.to_nmea_lon).1 := by
  unfold Position.to_nmea_lon
  simp only
  rw [asciiStr_append]
  exact ⟨ascii_pyFmt0d _ _, ascii_pyPad0 _ (ascii_pyFmtFixed _ _)⟩

theorem ascii_to_nmea_lon_snd (p : Position ℚ) :
    asciiStr (p.to_nmea_lon).2 := by
  unfold Position.to_nmea_lon
  simp only
  split_ifs <;> exact asciiStr_literal (by decide)

theorem ascii_joinComma :
    ∀ l : List String, (∀ s ∈ l, asciiStr s) → asciiStr (joinComma l) := by
  intro l
  induction l with
  | nil => intro _; exact asciiStr_literal (by decide)
  | cons s rest ih =>
    intro h
    cases rest with
    | nil => exact h s (by simp)
    | cons s2 rest2 =>
      rw [show joinComma (s :: s2 :: rest2) = s ++ "," ++
        joinComma (s2 :: rest2) from rfl]
      rw [asciiStr_append, asciiStr_append]
      exact ⟨⟨h s (by simp), asciiStr_literal (by decide)⟩,
        ih (fun t ht => h t (List.mem_cons_of_mem s ht))⟩

theorem ascii_sat_list (sats : List ℤ) : asciiStr (GPGSA.sat_list sats) := by
  unfold GPGSA.sat_list
  apply ascii_joinComma
  intro s hs
  unfold GPGSA.slots at hs
  rcases List.mem_map.mp hs with ⟨sat, _, hmap⟩
  rw [← hmap]
  split_ifs
  · exact ascii_intToStr _
  · exact asciiStr_literal (by decide)

/-! The two-hex-digit checksum rendering (claim C3). -/

theorem pyHexDigitChar_props (m : ℕ) :
    (pyHexDigitChar m).toNat < 128 ∧ pyHexDigitChar m ≠ ('*') := by
  constructor
  · exact getD_pred (P := fun c => c.toNat < 128) (by decide) (by decide) m
  · exact getD_pred (P := fun c => c ≠ ('*')) (by decide) (by decide) m

theorem hexDigit_facts :
    ∀ m : ℕ, m < 16 → isHexUpperDigit (pyHexDigitChar m) = true ∧
      hexCharVal (pyHexDigitChar m) = m := by decide

theorem hexDigitsAux_small {fuel m : ℕ} (acc : List Char) (hm : m < 16)
    (hf : 0 < fuel) :
    hexDigitsAux fuel m acc = pyHexDigitChar m :: acc := by
  cases fuel with
  | zero => omega
  | succ f =>
    rw [show hexDigitsAux (f + 1) m acc =
      (if m < 16 then pyHexDigitChar m :: acc
       else hexDigitsAux f (m / 16) (pyHexDigitChar (m % 16) :: acc)) from
        rfl]
    rw [if_pos hm]

theorem hexDigitsAux_two {fuel m : ℕ} (acc : List Char) (h1 : 16 ≤ m)
    (h2 : m < 256) (hf : 2 ≤ fuel) :
    hexDigitsAux fuel m acc =
      pyHexDigitChar (m / 16) :: pyHexDigitChar (m % 16) :: acc := by
  cases fuel with
  | zero => omega
  | succ f =>
    rw [show hexDigitsAux (f + 1) m acc =
      (if m < 16 then pyHexDigitChar m :: acc
       else hexDigitsAux f (m / 16) (pyHexDigitChar (m % 16) :: acc)) from
        rfl]
    rw [if_neg (by omega)]
    exact hexDigitsAux_small _ (by omega) (by omega)

theorem pyHex02_spec {n : ℕ} (h : n < 256) :
    (pyHex02 n).data = (if n < 16
      then [('0'), pyHexDigitChar n]
      else [pyHexDigitChar (n / 16), pyHexDigitChar (n % 16)]) := by
  unfold pyHex02
  simp only
  split_ifs with h16
  · rw [hexDigitsAux_small [] h16 (by omega)]
    rfl
  · rw [hexDigitsAux_two [] (by omega) h (by omega)]
    rfl

theorem xorChars_lt {l : List Char} (h : ∀ c ∈ l, c.toNat < 128) :
    xorChars l < 128 := by
  unfold xorChars
  suffices hgen : ∀ a : ℕ, a < 128 →
      l.foldl (fun a c => a ^^^ c.toNat) a < 128 by
    exact hgen 0 (by omega)
  induction l with
  | nil => intro a ha; exact ha
  | cons c rest ih =>
    intro a ha
    rw [List.foldl_cons]
    exact ih (fun d hd => h d (List.mem_cons_of_mem c hd))
      _ (Nat.xor_lt_two_pow (n := 7) ha (h c (List.mem_cons_self c rest)))

/-- The core checksum property (claim C3): whenever a sentence `data`
string begins with `$` or `!`, ends with `*`, and is 7-bit, the string
`finalizeSentence data` (i.e. `data + calculate_checksum(data[1:-1])`)
passes the checksum well-formedness check. -/
theorem finalize_checksumOk {data : String}
    (hhead : data.data.head? = some ('$') ∨ data.data.head? = some ('!'))
    (hlast : data.data.getLast? = some ('*'))
    (hascii : asciiStr data) :
    checksumOkB (finalizeSentence data) = true := by
  have hmid : ∀ c ∈ (data.data.drop 1).dropLast, c.toNat < 128 := by
    intro c hc
    exact hascii c (List.Sublist.mem hc
      ((List.dropLast_sublist _).trans (List.drop_sublist _ _)))
  set n := xorChars ((data.data.drop 1).dropLast) with hn
  have hn128 : n < 128 := xorChars_lt hmid
  have hfin : (finalizeSentence data).data = data.data ++ (pyHex02 n).data := by
    unfold finalizeSentence NMEAMessage.calculate_checksum pySlice1m1
    rw [String.data_append]
  have hspec := pyHex02_spec (show n < 256 by omega)
  have hlen2 : (pyHex02 n).data.length = 2 := by
    rw [hspec]; split_ifs <;> rfl
  have hnostar : ∀ c ∈ (pyHex02 n).data, c ≠ ('*') := by
    intro c hc
    rw [hspec] at hc
    split_ifs at hc with h16 <;>
      simp only [List.mem_cons, List.not_mem_nil, or_false] at hc <;>
      rcases hc with h | h <;> rw [h]
    · decide
    · exact (pyHexDigitChar_props n).2
    · exact (pyHexDigitChar_props (n / 16)).2
    · exact (pyHexDigitChar_props (n % 16)).2
  have hhex : (pyHex02 n).data.all isHexUpperDigit = true := by
    rw [hspec]
    split_ifs with h16
    · have h2 := (hexDigit_facts n h16).1
      simp [List.all, h2, show isHexUpperDigit ('0') = true from rfl]
    · have h2 := (hexDigit_facts (n / 16) (by omega)).1
      have h3 := (hexDigit_facts (n % 16) (by omega)).1
      simp [List.all, h2, h3]
  have hval : hexPairVal (pyHex02 n).data = n := by
    rw [hspec]
    split_ifs with h16
    · rw [show hexPairVal [('0'), pyHexDigitChar n] =
        16 * (16 * 0 + hexCharVal ('0')) + hexCharVal (pyHexDigitChar n)
        from rfl]
      rw [(hexDigit_facts n h16).2,
        show hexCharVal ('0') = 0 from rfl]
      omega
    · rw [show hexPairVal [pyHexDigitChar (n / 16), pyHexDigitChar (n % 16)] =
        16 * (16 * 0 + hexCharVal (pyHexDigitChar (n / 16))) +
          hexCharVal (pyHexDigitChar (n % 16)) from rfl]
      rw [(hexDigit_facts (n / 16) (by omega)).2,
        (hexDigit_facts (n % 16) (by omega)).2]
      omega
  obtain ⟨rest, hrev⟩ : ∃ rest, data.data.reverse = ('*') :: rest := by
    have h := List.head?_reverse data.data
    rw [hlast] at h
    cases hr : data.data.reverse with
    | nil => rw [hr] at h; simp at h
    | cons a t =>
      rw [hr] at h
      simp only [List.head?_cons, Option.some_inj] at h
      exact ⟨t, by rw [h]⟩
  have hrevfull : (data.data ++ (pyHex02 n).data).reverse =
      (pyHex02 n).data.reverse ++ ('*') :: rest := by
    rw [List.reverse_append, hrev]
  have hallrev : ∀ c ∈ (pyHex02 n).data.reverse,
      (decide (c ≠ ('*')) : Bool) = true := by
    intro c hc
    simpa using hnostar c (List.mem_reverse.mp hc)
  have htake : ((data.data ++ (pyHex02 n).data).reverse.takeWhile
      (fun c => c ≠ ('*'))) = (pyHex02 n).data.reverse := by
    rw [hrevfull, List.takeWhile_append_of_pos hallrev,
      List.takeWhile_cons_of_neg (by simp), List.append_nil]
  have hdrop : ((data.data ++ (pyHex02 n).data).reverse.dropWhile
      (fun c => c ≠ ('*'))) = data.data.reverse := by
    rw [hrevfull, List.dropWhile_append_of_pos hallrev,
      List.dropWhile_cons_of_neg (by simp), hrev]
  have hne : data.data ≠ [] := by
    intro hcon
    rw [hcon] at hlast
    simp at hlast
  unfold checksumOkB
  simp only [hfin, htake, hdrop, List.reverse_reverse]
  have hhead2 : (data.data ++ (pyHex02 n).data).head? = data.data.head? := by
    rw [List.head?_append]
    cases hh : data.data.head? with
    | none => exact absurd (List.head?_eq_none_iff.mp hh) hne
    | some c => rfl
  rw [hhead2]
  have hmatch : (match data.data.head? with
      | some c => c == ('$') || c == ('!')
      | none => false) = true := by
    rcases hhead with h | h <;> rw [h] <;> rfl
  rw [hmatch, hlast, hlen2, hhex, hval]
  simp
  rw [hn, List.drop_one]

theorem data_getLast_star (x z : String) (h : z.data.getLast? = some ('*')) :
    (x ++ z).data.getLast? = some ('*') := by
  rw [String.data_append, List.getLast?_append, h]
  rfl

set_option maxHeartbeats 4000000 in
/-- Claim C3: for every sentence type, the rendered string ends with `*`
followed by exactly two uppercase zero-padded hexadecimal digits whose
value is the XOR of the byte value of every character strictly between the
leading `$` (or `!`) and the trailing `*` (the string parameters fed into a
sentence are assumed 7-bit, as every string the simulator passes is). -/
theorem c3_checksum_all_sentences :
    (∀ (time_str date_str : String) (position : Position ℚ) (speed_knots course u1 u2 : ℚ), asciiStr time_str → asciiStr date_str →
      checksumOkB (GPRMC.to_string time_str date_str position speed_knots course u1 u2) = true) ∧
    (∀ (speed_knots heading u1 u2 : ℚ),
      checksumOkB (IIVHW.to_string speed_knots heading u1 u2) = true) ∧
    (∀ (course speed_knots u1 u2 : ℚ),
      checksumOkB (GPVTG.to_string course speed_knots u1 u2) = true) ∧
    (∀ (heading u1 : ℚ),
      checksumOkB (IIHDT.to_string heading u1) = true) ∧
    (∀ (time_str : String) (position : Position ℚ), asciiStr time_str →
      checksumOkB (GPGLL.to_string time_str position) = true) ∧
    (∀ (time_str : String) (position : Position ℚ) (quality satellites : ℤ) (hdop altitude u1 u2 u3 : ℚ), asciiStr time_str →
      checksumOkB (GPGGA.to_string time_str position quality satellites hdop altitude u1 u2 u3) = true) ∧
    (∀ (satellites : List ℤ) (pdop hdop vdop u1 u2 u3 : ℚ),
      checksumOkB (GPGSA.to_string satellites pdop hdop vdop u1 u2 u3) = true) ∧
    (∀ (time_str zda_date : String), asciiStr time_str → asciiStr zda_date →
      checksumOkB (GPZDA.to_string time_str zda_date) = true) ∧
    (∀ (speed_knots u1 : ℚ),
      checksumOkB (IIVBW.to_string speed_knots u1) = true) ∧
    (∀ (wind_direction wind_speed_knots u1 u2 : ℚ),
      checksumOkB (WIMWD.to_string wind_direction wind_speed_knots u1 u2) = true) ∧
    (∀ (wind_direction wind_speed_knots u1 u2 : ℚ),
      checksumOkB (WIMWV.to_string wind_direction wind_speed_knots u1 u2) = true) ∧
    (∀ (temperature_celsius u1 : ℚ),
      checksumOkB (IIMTW.to_string temperature_celsius u1) = true) ∧
    (∀ (depth_meters offset u1 : ℚ),
      checksumOkB (SDDPT.to_string depth_meters offset u1) = true) ∧
    (∀ (depth_feet depth_meters depth_fathoms u1 u2 u3 : ℚ),
      checksumOkB (SDDBT.to_string depth_feet depth_meters depth_fathoms u1 u2 u3) = true) ∧
    (∀ (engine_id : String) (rpm pitch u1 u2 : ℚ), asciiStr engine_id →
      checksumOkB (IIRPM.to_string engine_id rpm pitch u1 u2) = true) ∧
    (∀ (bearing_to_dest bearing_to_dest_mag heading u1 u2 u3 : ℚ),
      checksumOkB (IIAPB.to_string bearing_to_dest bearing_to_dest_mag heading u1 u2 u3) = true) ∧
    (∀ (position : Position ℚ) (bearing distance speed heading u1 u2 u3 u4 : ℚ),
      checksumOkB (GPRMB.to_string position bearing distance speed heading u1 u2 u3 u4) = true) ∧
    (∀ (message_id fragment_count fragment_number : ℤ) (radio_channel payload : String), asciiStr radio_channel → asciiStr payload →
      checksumOkB (AIVDO.to_string message_id fragment_count fragment_number radio_channel payload) = true) ∧
    (∀ (message_id fragment_count fragment_number : ℤ) (radio_channel payload : String), asciiStr radio_channel → asciiStr payload →
      checksumOkB (AIVDM.to_string message_id fragment_count fragment_number radio_channel payload) = true) := by
  refine ⟨?_, ?_, ?_, ?_, ?_, ?_, ?_, ?_, ?_, ?_, ?_, ?_, ?_, ?_, ?_, ?_, ?_, ?_, ?_⟩
  · intro time_str date_str position speed_knots course u1 u2 h_time_str h_date_str
    unfold GPRMC.to_string
    simp only
    apply finalize_checksumOk
    · exact Or.inl rfl
    · exact data_getLast_star _ _ rfl
    · simp only [asciiStr_append]
      exact ⟨⟨⟨⟨⟨⟨⟨⟨⟨⟨⟨⟨⟨⟨⟨⟨asciiStr_literal (by decide), h_time_str⟩, asciiStr_literal (by decide)⟩, ascii_to_nmea_lat_fst position⟩, asciiStr_literal (by decide)⟩, ascii_to_nmea_lat_snd position⟩, asciiStr_literal (by decide)⟩, ascii_to_nmea_lon_fst position⟩, asciiStr_literal (by decide)⟩, ascii_to_nmea_lon_snd position⟩, asciiStr_literal (by decide)⟩, ascii_pyFmtFixed _ _⟩, asciiStr_literal (by decide)⟩, ascii_pyFmtFixed _ _⟩, asciiStr_literal (by decide)⟩, h_date_str⟩, asciiStr_literal (by decide)⟩
  · intro speed_knots heading u1 u2
    unfold IIVHW.to_string
    simp only
    apply finalize_checksumOk
    · exact Or.inl rfl
    · exact data_getLast_star _ _ rfl
    · simp only [asciiStr_append]
      exact ⟨⟨⟨⟨⟨⟨⟨⟨asciiStr_literal (by decide), ascii_pyFmtFixed _ _⟩, asciiStr_literal (by decide)⟩, ascii_pyFmtFixed _ _⟩, asciiStr_literal (by decide)⟩, ascii_pyFmtFixed _ _⟩, asciiStr_literal (by decide)⟩, ascii_pyFmtFixed _ _⟩, asciiStr_literal (by decide)⟩
  · intro course speed_knots u1 u2
    unfold GPVTG.to_string
    simp only
    apply finalize_checksumOk
    · exact Or.inl rfl
    · exact data_getLast_star _ _ rfl
    · simp only [asciiStr_append]
      exact ⟨⟨⟨⟨⟨⟨⟨⟨asciiStr_literal (by decide), ascii_pyFmtFixed _ _⟩, asciiStr_literal (by decide)⟩, ascii_pyFmtFixed _ _⟩, asciiStr_literal (by decide)⟩, ascii_pyFmtFixed _ _⟩, asciiStr_literal (by decide)⟩, ascii_pyFmtFixed _ _⟩, asciiStr_literal (by decide)⟩
  · intro heading u1
    unfold IIHDT.to_string
    simp only
    apply finalize_checksumOk
    · exact Or.inl rfl
    · exact data_getLast_star _ _ rfl
    · simp only [asciiStr_append]
      exact ⟨⟨asciiStr_literal (by decide), ascii_pyFmtFixed _ _⟩, asciiStr_literal (by decide)⟩
  · intro time_str position h_time_str
    unfold GPGLL.to_string
    simp only
    apply finalize_checksumOk
    · exact Or.inl rfl
    · exact data_getLast_star _ _ rfl
    · simp only [asciiStr_append]
      exact ⟨⟨⟨⟨⟨⟨⟨⟨⟨⟨asciiStr_literal (by decide), ascii_to_nmea_lat_fst position⟩, asciiStr_literal (by decide)⟩, ascii_to_nmea_lat_snd position⟩, asciiStr_literal (by decide)⟩, ascii_to_nmea_lon_fst position⟩, asciiStr_literal (by decide)⟩, ascii_to_nmea_lon_snd position⟩, asciiStr_literal (by decide)⟩, h_time_str⟩, asciiStr_literal (by decide)⟩
  · intro time_str position quality satellites hdop altitude u1 u2 u3 h_time_str
    unfold GPGGA.to_string
    simp only
    apply finalize_checksumOk
    · exact Or.inl rfl
    · exact data_getLast_star _ _ rfl
    · simp only [asciiStr_append]
      exact ⟨⟨⟨⟨⟨⟨⟨⟨⟨⟨⟨⟨⟨⟨⟨⟨⟨⟨asciiStr_literal (by decide), h_time_str⟩, asciiStr_literal (by decide)⟩, ascii_to_nmea_lat_fst position⟩, asciiStr_literal (by decide)⟩, ascii_to_nmea_lat_snd position⟩, asciiStr_literal (by decide)⟩, ascii_to_nmea_lon_fst position⟩, asciiStr_literal (by decide)⟩, ascii_to_nmea_lon_snd position⟩, asciiStr_literal (by decide)⟩, ascii_intToStr _⟩, asciiStr_literal (by decide)⟩, ascii_intToStr _⟩, asciiStr_literal (by decide)⟩, ascii_pyFmtFixed _ _⟩, asciiStr_literal (by decide)⟩, ascii_pyFmtFixed _ _⟩, asciiStr_literal (by decide)⟩
  · intro satellites pdop hdop vdop u1 u2 u3
    unfold GPGSA.to_string
    simp only
    apply finalize_checksumOk
    · exact Or.inl rfl
    · exact data_getLast_star _ _ rfl
    · simp only [asciiStr_append]
      exact ⟨⟨⟨⟨⟨⟨⟨⟨asciiStr_literal (by decide), ascii_sat_list satellites⟩, asciiStr_literal (by decide)⟩, ascii_pyFmtFixed _ _⟩, asciiStr_literal (by decide)⟩, ascii_pyFmtFixed _ _⟩, asciiStr_literal (by decide)⟩, ascii_pyFmtFixed _ _⟩, asciiStr_literal (by decide)⟩
  · intro time_str zda_date h_time_str h_zda_date
    unfold GPZDA.to_string
    apply finalize_checksumOk
    · exact Or.inl rfl
    · exact data_getLast_star _ _ rfl
    · simp only [asciiStr_append]
      exact ⟨⟨⟨⟨asciiStr_literal (by decide), h_time_str⟩, asciiStr_literal (by decide)⟩, h_zda_date⟩, asciiStr_literal (by decide)⟩
  · intro speed_knots u1
    unfold IIVBW.to_string
    simp only
    apply finalize_checksumOk
    · exact Or.inl rfl
    · exact data_getLast_star _ _ rfl
    · simp only [asciiStr_append]
      exact ⟨⟨⟨⟨⟨⟨⟨⟨⟨⟨⟨⟨asciiStr_literal (by decide), ascii_pyFmtFixed _ _⟩, asciiStr_literal (by decide)⟩, ascii_pyFmtFixed _ _⟩, asciiStr_literal (by decide)⟩, ascii_pyFmtFixed _ _⟩, asciiStr_literal (by decide)⟩, ascii_pyFmtFixed _ _⟩, asciiStr_literal (by decide)⟩, ascii_pyFmtFixed _ _⟩, asciiStr_literal (by decide)⟩, ascii_pyFmtFixed _ _⟩, asciiStr_literal (by decide)⟩
  · intro wind_direction wind_speed_knots u1 u2
    unfold WIMWD.to_string
    simp only
    apply finalize_checksumOk
    · exact Or.inl rfl
    · exact data_getLast_star _ _ rfl
    · simp only [asciiStr_append]
      exact ⟨⟨⟨⟨⟨⟨⟨⟨asciiStr_literal (by decide), ascii_pyFmtFixed _ _⟩, asciiStr_literal (by decide)⟩, ascii_pyFmtFixed _ _⟩, asciiStr_literal (by decide)⟩, ascii_pyFmtFixed _ _⟩, asciiStr_literal (by decide)⟩, ascii_pyFmtFixed _ _⟩, asciiStr_literal (by decide)⟩
  · intro wind_direction wind_speed_knots u1 u2
    unfold WIMWV.to_string
    simp only
    apply finalize_checksumOk
    · exact Or.inl rfl
    · exact data_getLast_star _ _ rfl
    · simp only [asciiStr_append]
      exact ⟨⟨⟨⟨asciiStr_literal (by decide), ascii_pyFmtFixed _ _⟩, asciiStr_literal (by decide)⟩, ascii_pyFmtFixed _ _⟩, asciiStr_literal (by decide)⟩
  · intro temperature_celsius u1
    unfold IIMTW.to_string
    simp only
    apply finalize_checksumOk
    · exact Or.inl rfl
    · exact data_getLast_star _ _ rfl
    · simp only [asciiStr_append]
      exact ⟨⟨asciiStr_literal (by decide), ascii_pyFmtFixed _ _⟩, asciiStr_literal (by decide)⟩
  · intro depth_meters offset u1
    unfold SDDPT.to_string
    simp only
    apply finalize_checksumOk
    · exact Or.inl rfl
    · exact data_getLast_star _ _ rfl
    · simp only [asciiStr_append]
      exact ⟨⟨⟨⟨asciiStr_literal (by decide), ascii_pyFmtFixed _ _⟩, asciiStr_literal (by decide)⟩, ascii_pyFmtFixed _ _⟩, asciiStr_literal (by decide)⟩
  · intro depth_feet depth_meters depth_fathoms u1 u2 u3
    unfold SDDBT.to_string
    simp only
    apply finalize_checksumOk
    · exact Or.inl rfl
    · exact data_getLast_star _ _ rfl
    · simp only [asciiStr_append]
      exact ⟨⟨⟨⟨⟨⟨asciiStr_literal (by decide), ascii_pyFmtFixed _ _⟩, asciiStr_literal (by decide)⟩, ascii_pyFmtFixed _ _⟩, asciiStr_literal (by decide)⟩, ascii_pyFmtFixed _ _⟩, asciiStr_literal (by decide)⟩
  · intro engine_id rpm pitch u1 u2 h_engine_id
    unfold IIRPM.to_string
    simp only
    apply finalize_checksumOk
    · exact Or.inl rfl
    · exact data_getLast_star _ _ rfl
    · simp only [asciiStr_append]
      exact ⟨⟨⟨⟨⟨⟨⟨⟨asciiStr_literal (by decide), h_engine_id⟩, asciiStr_literal (by decide)⟩, h_engine_id⟩, asciiStr_literal (by decide)⟩, ascii_pyFmtFixed _ _⟩, asciiStr_literal (by decide)⟩, ascii_pyFmtFixed _ _⟩, asciiStr_literal (by decide)⟩
  · intro bearing_to_dest bearing_to_dest_mag heading u1 u2 u3
    unfold IIAPB.to_string
    simp only
    apply finalize_checksumOk
    · exact Or.inl rfl
    · exact data_getLast_star _ _ rfl
    · simp only [asciiStr_append]
      exact ⟨⟨⟨⟨⟨⟨⟨⟨asciiStr_literal (by decide), ascii_pyFmtFixed _ _⟩, asciiStr_literal (by decide)⟩, ascii_pyFmtFixed _ _⟩, asciiStr_literal (by decide)⟩, ascii_pyFmtFixed _ _⟩, asciiStr_literal (by decide)⟩, ascii_pyFmtFixed _ _⟩, asciiStr_literal (by decide)⟩
  · intro position bearing distance speed heading u1 u2 u3 u4
    unfold GPRMB.to_string
    simp only
    apply finalize_checksumOk
    · exact Or.inl rfl
    · exact data_getLast_star _ _ rfl
    · simp only [asciiStr_append]
      exact ⟨⟨⟨⟨⟨⟨⟨⟨⟨⟨⟨⟨⟨⟨asciiStr_literal (by decide), ascii_pyFmtFixed _ _⟩, asciiStr_literal (by decide)⟩, ascii_to_nmea_lat_fst position⟩, asciiStr_literal (by decide)⟩, ascii_to_nmea_lat_snd position⟩, asciiStr_literal (by decide)⟩, ascii_to_nmea_lon_fst position⟩, asciiStr_literal (by decide)⟩, ascii_to_nmea_lon_snd position⟩, asciiStr_literal (by decide)⟩, ascii_pyFmtFixed _ _⟩, asciiStr_literal (by decide)⟩, ascii_pyFmtFixed _ _⟩, asciiStr_literal (by decide)⟩
  · intro message_id fragment_count fragment_number radio_channel payload h_radio_channel h_payload
    unfold AIVDO.to_string
    apply finalize_checksumOk
    · exact Or.inr rfl
    · exact data_getLast_star _ _ rfl
    · simp only [asciiStr_append]
      exact ⟨⟨⟨⟨⟨⟨⟨⟨⟨⟨asciiStr_literal (by decide), ascii_intToStr _⟩, asciiStr_literal (by decide)⟩, ascii_intToStr _⟩, asciiStr_literal (by decide)⟩, h_radio_channel⟩, asciiStr_literal (by decide)⟩, h_payload⟩, asciiStr_literal (by decide)⟩, ascii_intToStr _⟩, asciiStr_literal (by decide)⟩
  · intro message_id fragment_count fragment_number radio_channel payload h_radio_channel h_payload
    unfold AIVDM.to_string
    apply finalize_checksumOk
    · exact Or.inr rfl
    · exact data_getLast_star _ _ rfl
    · simp only [asciiStr_append]
      exact ⟨⟨⟨⟨⟨⟨⟨⟨⟨⟨asciiStr_literal (by decide), ascii_intToStr _⟩, asciiStr_literal (by decide)⟩, ascii_intToStr _⟩, asciiStr_literal (by decide)⟩, h_radio_channel⟩, asciiStr_literal (by decide)⟩, h_payload⟩, asciiStr_literal (by decide)⟩, ascii_intToStr _⟩, asciiStr_literal (by decide)⟩

theorem c3_checksum_all_sentences_witness :
    asciiStr ("123519.000") ∧ asciiStr ("230394") ∧
    checksumOkB (GPRMC.to_string ("123519.000") ("230394")
      (Position.mk 0 0) 4 5 0 0) = true :=
  ⟨asciiStr_literal (by decide), asciiStr_literal (by decide),
    c3_checksum_all_sentences.1 ("123519.000") ("230394") (Position.mk 0 0) 4 5 0 0
      (asciiStr_literal (by decide)) (asciiStr_literal (by decide))⟩

/-! The head of each message of the `generate_messages` batch, one lemma
per slot. -/

theorem genHead0 (position : Position ℚ) (heading speed : ℚ)
    (env : EnvState) (tick : EnvTick) (r : GenRand) :
    ((NMEASimulator.generate_messages position heading speed env tick r).getD 0 ("")).data.take 7 =
      ("$GPRMC,").data := by
  show (GPRMC.to_string r.time_str r.date_str position speed heading r.u_rmc_speed r.u_rmc_course).data.take 7 = ("$GPRMC,").data
  unfold GPRMC.to_string finalizeSentence
  simp only [String.data_append, List.append_assoc]
  exact List.take_left' rfl

theorem genHead1 (position : Position ℚ) (heading speed : ℚ)
    (env : EnvState) (tick : EnvTick) (r : GenRand) :
    ((NMEASimulator.generate_messages position heading speed env tick r).getD 1 ("")).data.take 7 =
      ("$IIVHW,").data := by
  show (IIVHW.to_string speed heading r.u_vhw_speed r.u_vhw_heading).data.take 7 = ("$IIVHW,").data
  unfold IIVHW.to_string finalizeSentence
  simp only [String.data_append, List.append_assoc]
  exact List.take_left' rfl

theorem genHead2 (position : Position ℚ) (heading speed : ℚ)
    (env : EnvState) (tick : EnvTick) (r : GenRand) :
    ((NMEASimulator.generate_messages position heading speed env tick r).getD 2 ("")).data.take 7 =
      ("$GPVTG,").data := by
  show (GPVTG.to_string heading speed r.u_vtg_course r.u_vtg_speed).data.take 7 = ("$GPVTG,").data
  unfold GPVTG.to_string finalizeSentence
  simp only [String.data_append, List.append_assoc]
  exact List.take_left' rfl

theorem genHead3 (position : Position ℚ) (heading speed : ℚ)
    (env : EnvState) (tick : EnvTick) (r : GenRand) :
    ((NMEASimulator.generate_messages position heading speed env tick r).getD 3 ("")).data.take 7 =
      ("$IIHDT,").data := by
  show (IIHDT.to_string heading r.u_hdt).data.take 7 = ("$IIHDT,").data
  unfold IIHDT.to_string finalizeSentence
  simp only [String.data_append, List.append_assoc]
  exact List.take_left' rfl

theorem genHead4 (position : Position ℚ) (heading speed : ℚ)
    (env : EnvState) (tick : EnvTick) (r : GenRand) :
    ((NMEASimulator.generate_messages position heading speed env tick r).getD 4 ("")).data.take 7 =
      ("$GPGLL,").data := by
  show (GPGLL.to_string r.time_str position).data.take 7 = ("$GPGLL,").data
  unfold GPGLL.to_string finalizeSentence
  simp only [String.data_append, List.append_assoc]
  exact List.take_left' rfl

theorem genHead5 (position : Position ℚ) (heading speed : ℚ)
    (env : EnvState) (tick : EnvTick) (r : GenRand) :
    ((NMEASimulator.generate_messages position heading speed env tick r).getD 5 ("")).data.take 7 =
      ("$GPGGA,").data := by
  show (GPGGA.to_string r.time_str position 1 4 1.0 2.0 r.u_gga_sat r.u_gga_hdop r.u_gga_alt).data.take 7 = ("$GPGGA,").data
  unfold GPGGA.to_string finalizeSentence
  simp only [String.data_append, List.append_assoc]
  exact List.take_left' rfl

theorem genHead6 (position : Position ℚ) (heading speed : ℚ)
    (env : EnvState) (tick : EnvTick) (r : GenRand) :
    ((NMEASimulator.generate_messages position heading speed env tick r).getD 6 ("")).data.take 7 =
      ("$GPGSA,").data := by
  show (GPGSA.to_string [8, 11, 15, 22] 2.0 1.0 1.0 r.u_gsa_p r.u_gsa_h r.u_gsa_v).data.take 7 = ("$GPGSA,").data
  unfold GPGSA.to_string finalizeSentence
  simp only [String.data_append, List.append_assoc]
  rfl

theorem genHead7 (position : Position ℚ) (heading speed : ℚ)
    (env : EnvState) (tick : EnvTick) (r : GenRand) :
    ((NMEASimulator.generate_messages position heading speed env tick r).getD 7 ("")).data.take 7 =
      ("$GPZDA,").data := by
  show (GPZDA.to_string r.time_str r.zda_date_str).data.take 7 = ("$GPZDA,").data
  unfold GPZDA.to_string finalizeSentence
  simp only [String.data_append, List.append_assoc]
  exact List.take_left' rfl

theorem genHead8 (position : Position ℚ) (heading speed : ℚ)
    (env : EnvState) (tick : EnvTick) (r : GenRand) :
    ((NMEASimulator.generate_messages position heading speed env tick r).getD 8 ("")).data.take 7 =
      ("$IIVBW,").data := by
  show (IIVBW.to_string speed r.u_vbw).data.take 7 = ("$IIVBW,").data
  unfold IIVBW.to_string finalizeSentence
  simp only [String.data_append, List.append_assoc]
  exact List.take_left' rfl

theorem genHead9 (position : Position ℚ) (heading speed : ℚ)
    (env : EnvState) (tick : EnvTick) (r : GenRand) :
    ((NMEASimulator.generate_messages position heading speed env tick r).getD 9 ("")).data.take 7 =
      ("$WIMWD,").data := by
  show (WIMWD.to_string (NMEASimulator.update_environmental_data env tick).wind_direction (NMEASimulator.update_environmental_data env tick).wind_speed r.u_mwd_dir r.u_mwd_speed).data.take 7 = ("$WIMWD,").data
  unfold WIMWD.to_string finalizeSentence
  simp only [String.data_append, List.append_assoc]
  exact List.take_left' rfl

theorem genHead10 (position : Position ℚ) (heading speed : ℚ)
    (env : EnvState) (tick : EnvTick) (r : GenRand) :
    ((NMEASimulator.generate_messages position heading speed env tick r).getD 10 ("")).data.take 7 =
      ("$WIMWV,").data := by
  show (WIMWV.to_string (NMEASimulator.update_environmental_data env tick).wind_direction (NMEASimulator.update_environmental_data env tick).wind_speed r.u_mwv_dir r.u_mwv_speed).data.take 7 = ("$WIMWV,").data
  unfold WIMWV.to_string finalizeSentence
  simp only [String.data_append, List.append_assoc]
  exact List.take_left' rfl

theorem genHead11 (position : Position ℚ) (heading speed : ℚ)
    (env : EnvState) (tick : EnvTick) (r : GenRand) :
    ((NMEASimulator.generate_messages position heading speed env tick r).getD 11 ("")).data.take 7 =
      ("$IIMTW,").data := by
  show (IIMTW.to_string (NMEASimulator.update_environmental_data env tick).water_temp r.u_mtw).data.take 7 = ("$IIMTW,").data
  unfold IIMTW.to_string finalizeSentence
  simp only [String.data_append, List.append_assoc]
  exact List.take_left' rfl

theorem genHead12 (position : Position ℚ) (heading speed : ℚ)
    (env : EnvState) (tick : EnvTick) (r : GenRand) :
    ((NMEASimulator.generate_messages position heading speed env tick r).getD 12 ("")).data.take 7 =
      ("$SDDPT,").data := by
  show (SDDPT.to_string (NMEASimulator.update_environmental_data env tick).depth 0.3 r.u_dpt).data.take 7 = ("$SDDPT,").data
  unfold SDDPT.to_string finalizeSentence
  simp only [String.data_append, List.append_assoc]
  exact List.take_left' rfl

theorem genHead13 (position : Position ℚ) (heading speed : ℚ)
    (env : EnvState) (tick : EnvTick) (r : GenRand) :
    ((NMEASimulator.generate_messages position heading speed env tick r).getD 13 ("")).data.take 7 =
      ("$SDDBT,").data := by
  show (SDDBT.to_string ((NMEASimulator.update_environmental_data env tick).depth * 3.28084) (NMEASimulator.update_environmental_data env tick).depth ((NMEASimulator.update_environmental_data env tick).depth * 0.546807) r.u_dbt_f r.u_dbt_m r.u_dbt_fa).data.take 7 = ("$SDDBT,").data
  unfold SDDBT.to_string finalizeSentence
  simp only [String.data_append, List.append_assoc]
  exact List.take_left' rfl

theorem genHead14 (position : Position ℚ) (heading speed : ℚ)
    (env : EnvState) (tick : EnvTick) (r : GenRand) :
    ((NMEASimulator.generate_messages position heading speed env tick r).getD 14 ("")).data.take 11 =
      ("$IIRPM,1,1,").data := by
  show (IIRPM.to_string ("1") (NMEASimulator.update_environmental_data env tick).engine_rpm (NMEASimulator.update_environmental_data env tick).engine_pitch r.u_rpm1 r.u_rpm1_pitch).data.take 11 = ("$IIRPM,1,1,").data
  unfold IIRPM.to_string finalizeSentence
  rw [show (("$IIRPM,") ++ ("1") ++ (",") ++ ("1") ++ (",") : String) =
    ("$IIRPM,1,1,") from rfl]
  simp only [String.data_append, List.append_assoc]
  exact List.take_left' rfl

theorem genHead15 (position : Position ℚ) (heading speed : ℚ)
    (env : EnvState) (tick : EnvTick) (r : GenRand) :
    ((NMEASimulator.generate_messages position heading speed env tick r).getD 15 ("")).data.take 11 =
      ("$IIRPM,2,2,").data := by
  show (IIRPM.to_string ("2") 0 (NMEASimulator.update_environmental_data env tick).engine_pitch r.u_rpm2 r.u_rpm2_pitch).data.take 11 = ("$IIRPM,2,2,").data
  unfold IIRPM.to_string finalizeSentence
  rw [show (("$IIRPM,") ++ ("2") ++ (",") ++ ("2") ++ (",") : String) =
    ("$IIRPM,2,2,") from rfl]
  simp only [String.data_append, List.append_assoc]
  exact List.take_left' rfl

theorem genHead16 (position : Position ℚ) (heading speed : ℚ)
    (env : EnvState) (tick : EnvTick) (r : GenRand) :
    ((NMEASimulator.generate_messages position heading speed env tick r).getD 16 ("")).data.take 7 =
      ("$IIAPB,").data := by
  show (IIAPB.to_string 0.012140 260.4 heading r.u_apb_b r.u_apb_bm r.u_apb_h).data.take 7 = ("$IIAPB,").data
  unfold IIAPB.to_string finalizeSentence
  simp only [String.data_append, List.append_assoc]
  rfl

theorem genHead17 (position : Position ℚ) (heading speed : ℚ)
    (env : EnvState) (tick : EnvTick) (r : GenRand) :
    ((NMEASimulator.generate_messages position heading speed env tick r).getD 17 ("")).data.take 7 =
      ("$GPRMB,").data := by
  show (GPRMB.to_string position 0.012140 3.573 speed heading r.u_rmb_b r.u_rmb_d r.u_rmb_s r.u_rmb_h).data.take 7 = ("$GPRMB,").data
  unfold GPRMB.to_string finalizeSentence
  simp only [String.data_append, List.append_assoc]
  rfl

theorem genHead18 (position : Position ℚ) (heading speed : ℚ)
    (env : EnvState) (tick : EnvTick) (r : GenRand) :
    ((NMEASimulator.generate_messages position heading speed env tick r).getD 18 ("")).data.take 14 =
      ("!AIVDO,1,1,,A,").data := by
  show (AIVDO.to_string 1 1 1 ("A") (NMEASimulator.ais_payloads.getD 0 (""))).data.take 14 = ("!AIVDO,1,1,,A,").data
  unfold AIVDO.to_string finalizeSentence
  rw [show (("!AIVDO,") ++ intToStr 1 ++ (",") ++ intToStr 1 ++ (",,") ++ ("A") ++ (",") : String) =
    ("!AIVDO,1,1,,A,") from rfl]
  simp only [String.data_append, List.append_assoc]
  exact List.take_left' rfl

theorem genHead19 (position : Position ℚ) (heading speed : ℚ)
    (env : EnvState) (tick : EnvTick) (r : GenRand) :
    ((NMEASimulator.generate_messages position heading speed env tick r).getD 19 ("")).data.take 14 =
      ("!AIVDM,1,1,,A,").data := by
  show (AIVDM.to_string 1 1 1 ("A") (NMEASimulator.ais_payloads.getD 0 (""))).data.take 14 = ("!AIVDM,1,1,,A,").data
  unfold AIVDM.to_string finalizeSentence
  rw [show (("!AIVDM,") ++ intToStr 1 ++ (",") ++ intToStr 1 ++ (",,") ++ ("A") ++ (",") : String) =
    ("!AIVDM,1,1,,A,") from rfl]
  simp only [String.data_append, List.append_assoc]
  exact List.take_left' rfl

theorem genHead20 (position : Position ℚ) (heading speed : ℚ)
    (env : EnvState) (tick : EnvTick) (r : GenRand) :
    ((NMEASimulator.generate_messages position heading speed env tick r).getD 20 ("")).data.take 14 =
      ("!AIVDO,1,9,,A,").data := by
  show (AIVDO.to_string 2 1 9 ("A") (NMEASimulator.ais_payloads.getD 1 (""))).data.take 14 = ("!AIVDO,1,9,,A,").data
  unfold AIVDO.to_string finalizeSentence
  rw [show (("!AIVDO,") ++ intToStr 1 ++ (",") ++ intToStr 9 ++ (",,") ++ ("A") ++ (",") : String) =
    ("!AIVDO,1,9,,A,") from rfl]
  simp only [String.data_append, List.append_assoc]
  exact List.take_left' rfl

theorem genHead21 (position : Position ℚ) (heading speed : ℚ)
    (env : EnvState) (tick : EnvTick) (r : GenRand) :
    ((NMEASimulator.generate_messages position heading speed env tick r).getD 21 ("")).data.take 14 =
      ("!AIVDO,2,9,,A,").data := by
  show (AIVDO.to_string 2 2 9 ("A") (NMEASimulator.ais_payloads.getD 2 (""))).data.take 14 = ("!AIVDO,2,9,,A,").data
  unfold AIVDO.to_string finalizeSentence
  rw [show (("!AIVDO,") ++ intToStr 2 ++ (",") ++ intToStr 9 ++ (",,") ++ ("A") ++ (",") : String) =
    ("!AIVDO,2,9,,A,") from rfl]
  simp only [String.data_append, List.append_assoc]
  exact List.take_left' rfl

theorem genHead22 (position : Position ℚ) (heading speed : ℚ)
    (env : EnvState) (tick : EnvTick) (r : GenRand) :
    ((NMEASimulator.generate_messages position heading speed env tick r).getD 22 ("")).data.take 14 =
      ("!AIVDM,1,9,,A,").data := by
  show (AIVDM.to_string 2 1 9 ("A") (NMEASimulator.ais_payloads.getD 1 (""))).data.take 14 = ("!AIVDM,1,9,,A,").data
  unfold AIVDM.to_string finalizeSentence
  rw [show (("!AIVDM,") ++ intToStr 1 ++ (",") ++ intToStr 9 ++ (",,") ++ ("A") ++ (",") : String) =
    ("!AIVDM,1,9,,A,") from rfl]
  simp only [String.data_append, List.append_assoc]
  exact List.take_left' rfl

theorem genHead23 (position : Position ℚ) (heading speed : ℚ)
    (env : EnvState) (tick : EnvTick) (r : GenRand) :
    ((NMEASimulator.generate_messages position heading speed env tick r).getD 23 ("")).data.take 14 =
      ("!AIVDM,2,9,,A,").data := by
  show (AIVDM.to_string 2 2 9 ("A") (NMEASimulator.ais_payloads.getD 2 (""))).data.take 14 = ("!AIVDM,2,9,,A,").data
  unfold AIVDM.to_string finalizeSentence
  rw [show (("!AIVDM,") ++ intToStr 2 ++ (",") ++ intToStr 9 ++ (",,") ++ ("A") ++ (",") : String) =
    ("!AIVDM,2,9,,A,") from rfl]
  simp only [String.data_append, List.append_assoc]
  exact List.take_left' rfl

/-- Claim C6: every call to generate_messages returns exactly 24 sentences
in the same fixed deterministic order and composition: one RMC fix, one VHW
water speed and heading, one VTG track made good, one HDT heading, one GLL
geographic position, one GGA GPS fix, one GSA DOP and satellites, one ZDA
date and time, one VBW water-referenced speed, two wind sentences (MWD and
MWV), one MTW water temperature, two depth sentences (DPT and DBT), two RPM
engine sentences (engine ids 1 and 2), one APB autopilot, one RMB
navigation info, and six AIS fragment sentences (one single-fragment VDO
and VDM pair, then a two-fragment payload split across VDO fragments 1 and
2 and across VDM fragments 1 and 2). -/
theorem c6_message_batch_order (position : Position ℚ) (heading speed : ℚ)
    (env : EnvState) (tick : EnvTick) (r : GenRand) :
    (NMEASimulator.generate_messages position heading speed env tick r).length = 24 ∧
    (((NMEASimulator.generate_messages position heading speed env tick r).getD 0 ("")).data.take 7 =
      ("$GPRMC,").data) ∧
    (((NMEASimulator.generate_messages position heading speed env tick r).getD 1 ("")).data.take 7 =
      ("$IIVHW,").data) ∧
    (((NMEASimulator.generate_messages position heading speed env tick r).getD 2 ("")).data.take 7 =
      ("$GPVTG,").data) ∧
    (((NMEASimulator.generate_messages position heading speed env tick r).getD 3 ("")).data.take 7 =
      ("$IIHDT,").data) ∧
    (((NMEASimulator.generate_messages position heading speed env tick r).getD 4 ("")).data.take 7 =
      ("$GPGLL,").data) ∧
    (((NMEASimulator.generate_messages position heading speed env tick r).getD 5 ("")).data.take 7 =
      ("$GPGGA,").data) ∧
    (((NMEASimulator.generate_messages position heading speed env tick r).getD 6 ("")).data.take 7 =
      ("$GPGSA,").data) ∧
    (((NMEASimulator.generate_messages position heading speed env tick r).getD 7 ("")).data.take 7 =
      ("$GPZDA,").data) ∧
    (((NMEASimulator.generate_messages position heading speed env tick r).getD 8 ("")).data.take 7 =
      ("$IIVBW,").data) ∧
    (((NMEASimulator.generate_messages position heading speed env tick r).getD 9 ("")).data.take 7 =
      ("$WIMWD,").data) ∧
    (((NMEASimulator.generate_messages position heading speed env tick r).getD 10 ("")).data.take 7 =
      ("$WIMWV,").data) ∧
    (((NMEASimulator.generate_messages position heading speed env tick r).getD 11 ("")).data.take 7 =
      ("$IIMTW,").data) ∧
    (((NMEASimulator.generate_messages position heading speed env tick r).getD 12 ("")).data.take 7 =
      ("$SDDPT,").data) ∧
    (((NMEASimulator.generate_messages position heading speed env tick r).getD 13 ("")).data.take 7 =
      ("$SDDBT,").data) ∧
    (((NMEASimulator.generate_messages position heading speed env tick r).getD 14 ("")).data.take 11 =
      ("$IIRPM,1,1,").data) ∧
    (((NMEASimulator.generate_messages position heading speed env tick r).getD 15 ("")).data.take 11 =
      ("$IIRPM,2,2,").data) ∧
    (((NMEASimulator.generate_messages position heading speed env tick r).getD 16 ("")).data.take 7 =
      ("$IIAPB,").data) ∧
    (((NMEASimulator.generate_messages position heading speed env tick r).getD 17 ("")).data.take 7 =
      ("$GPRMB,").data) ∧
    (((NMEASimulator.generate_messages position heading speed env tick r).getD 18 ("")).data.take 14 =
      ("!AIVDO,1,1,,A,").data) ∧
    (((NMEASimulator.generate_messages position heading speed env tick r).getD 19 ("")).data.take 14 =
      ("!AIVDM,1,1,,A,").data) ∧
    (((NMEASimulator.generate_messages position heading speed env tick r).getD 20 ("")).data.take 14 =
      ("!AIVDO,1,9,,A,").data) ∧
    (((NMEASimulator.generate_messages position heading speed env tick r).getD 21 ("")).data.take 14 =
      ("!AIVDO,2,9,,A,").data) ∧
    (((NMEASimulator.generate_messages position heading speed env tick r).getD 22 ("")).data.take 14 =
      ("!AIVDM,1,9,,A,").data) ∧
    (((NMEASimulator.generate_messages position heading speed env tick r).getD 23 ("")).data.take 14 =
      ("!AIVDM,2,9,,A,").data) :=
  ⟨rfl, genHead0 position heading speed env tick r, genHead1 position heading speed env tick r, genHead2 position heading speed env tick r, genHead3 position heading speed env tick r, genHead4 position heading speed env tick r, genHead5 position heading speed env tick r, genHead6 position heading speed env tick r, genHead7 position heading speed env tick r, genHead8 position heading speed env tick r, genHead9 position heading speed env tick r, genHead10 position heading speed env tick r, genHead11 position heading speed env tick r, genHead12 position heading speed env tick r, genHead13 position heading speed env tick r, genHead14 position heading speed env tick r, genHead15 position heading speed env tick r, genHead16 position heading speed env tick r, genHead17 position heading speed env tick r, genHead18 position heading speed env tick r, genHead19 position heading speed env tick r, genHead20 position heading speed env tick r, genHead21 position heading speed env tick r, genHead22 position heading speed env tick r, genHead23 position heading speed env tick r⟩
